import Mathlib

/-!
# Atlas dashboard views: profile table and glossary detail

A shallow embedding of `ProfileTableLayoutView.js` and
`GlossaryDetailLayoutView.js` (dashboardv2/public/js/views), and theorems
about the row collection, the cell formatters, the edit callback, the
detail loader and the association strips.

JavaScript values are modelled by `Val`; numbers are integers. Objects whose
keys are read dynamically (column, profile and row attributes) are
association lists read with `List.lookup`, so the first binding of a key is
its value.
-/

set_option autoImplicit false

namespace Atlas

/-! ## JavaScript values and objects -/

/-- The JavaScript values that occur in column, profile and row attributes. -/
inductive Val where
  | undefined : Val
  | null : Val
  | num (n : Int) : Val
  | str (s : String) : Val
  | obj (fields : List (String × Val)) : Val
  deriving Repr

/-- Truthiness of a value, as used by `||` and `&&`: `undefined`, `null`,
the number 0 and the empty string are falsy. -/
def Val.truthy : Val → Bool
  | .undefined => false
  | .null => false
  | .num n => n != 0
  | .str s => s != ""
  | .obj _ => true

/-- The expression `a || b`. -/
def Val.or (a b : Val) : Val := if a.truthy then a else b

/-- The test `v === s` against a string literal. -/
def Val.isStr (v : Val) (s : String) : Bool :=
  match v with
  | .str t => t == s
  | _ => false

/-- The comparison `a > b` on two numbers or on two strings. A comparison of
values of different kinds (which JavaScript settles by numeric coercion) is
not modelled and counts as false. -/
def Val.gt : Val → Val → Bool
  | .num a, .num b => decide (b < a)
  | .str a, .str b => decide (b < a)
  | _, _ => false

/-- A plain object with dynamic keys: an association list, the first binding
of a key being its value. -/
abbrev Attrs := List (String × Val)

/-- Property read `o[k]`: `undefined` when the key is absent. -/
def Attrs.get (o : Attrs) (k : String) : Val := (List.lookup k o).getD Val.undefined

/-- The call `_.extend(dst, src)`: every key of `src` overrides that key of
`dst`, the other keys of `dst` are kept. -/
def extend (dst src : Attrs) : Attrs := src ++ dst

/-! ## ProfileTableLayoutView -/

/-- The object returned by `Utils.getProfileTabType`: the fields the two
views read. -/
structure ProfileTab where
  type : Val
  actualObj : List Attrs

/-- The signature of `Utils.getProfileTabType(profileData, skipData)`, which
lives in utils/Utils and is taken as a parameter; `none` is the result
`undefined`. -/
abbrev TabTypeFn := Attrs → Bool → Option ProfileTab

/-- The entity held in a column's `profileData` attribute. -/
structure ProfileData where
  attributes : Attrs

/-- One element of `entityDetail.columns`. The attribute `profileData` is kept
apart from the other attributes: it is `null` (`none`) or an entity;
`allAttributes` is the whole object `obj.attributes`. -/
structure Column where
  guid : String
  attributes : Attrs
  profileData : Option ProfileData

/-- The comparator of `profileCollection`:
`item.get('position') || 999`. -/
def comparator (item : Attrs) : Val := (item.get "position").or (Val.num 999)

/-- The object `changeValueObj` built in the loop body of the constructor. -/
def changeValueObj (profileObj : Option ProfileTab) : Attrs :=
  match profileObj with
  | none => []
  | some p =>
    if p.type.truthy then
      let c0 : Attrs := []
      let c1 := if p.type.isStr "numeric" then
        extend c0 [("averageLength", Val.num 0), ("maxLength", Val.num 0)] else c0
      let c2 := if p.type.isStr "string" then
        extend c1 [("minValue", Val.num 0), ("maxValue", Val.num 0),
          ("meanValue", Val.num 0), ("medianValue", Val.num 0)] else c1
      let c3 := if p.type.isStr "date" then
        extend c2 [("averageLength", Val.num 0), ("maxLength", Val.num 0),
          ("minValue", Val.num 0), ("maxValue", Val.num 0),
          ("meanValue", Val.num 0), ("medianValue", Val.num 0)] else c2
      c3
    else []

/-- The entity `profileData` as a value. -/
def ProfileData.toVal (pd : ProfileData) : Val :=
  Val.obj [("attributes", Val.obj pd.attributes)]

/-- The object `obj.attributes`: the `profileData` attribute together with the
other attributes. -/
def Column.allAttributes (obj : Column) : Attrs :=
  match obj.profileData with
  | none => ("profileData", Val.null) :: obj.attributes
  | some pd => ("profileData", pd.toVal) :: obj.attributes

/-- The row added for a column with profile data:
`_.extend({}, obj.attributes, obj.attributes.profileData.attributes,
changeValueObj, { guid: obj.guid, position: obj.attributes ? obj.attributes.position : null })`.
The object `obj.attributes` exists here, its `profileData` having been read,
so the guard of `position` takes its first branch. -/
def buildRow (getProfileTabType : TabTypeFn) (obj : Column) (pd : ProfileData) : Attrs :=
  let profileObj := getProfileTabType pd.attributes true
  extend (extend (extend (extend [] obj.allAttributes) pd.attributes)
    (changeValueObj profileObj))
    [("guid", Val.str obj.guid), ("position", obj.allAttributes.get "position")]

/-- Modelled from the spec: the row store `VCommonList` (collection/VCommonList)
is missing; the spec calls it a position-ordered row store whose ties keep
insertion order. Adding a row puts it after every row whose comparator key is
not greater than its own. -/
def addRow (key : Attrs → Val) (row : Attrs) : List Attrs → List Attrs
  | [] => [row]
  | r :: rest =>
    if (key r).gt (key row) then row :: r :: rest else r :: addRow key row rest

/-- No row of the store has a key greater than the key of a later row. -/
def KeyOrdered (key : Attrs → Val) (rows : List Attrs) : Prop :=
  rows.Pairwise (fun x y => (key x).gt (key y) = false)

/-- The body of the loop of the constructor `initialize`, run on one column:
`rows` are the rows of `profileCollection.fullCollection`. -/
def loopBody (getProfileTabType : TabTypeFn) (rows : List Attrs) (obj : Column) : List Attrs :=
  match obj.profileData with
  | none => rows
  | some pd => addRow comparator (buildRow getProfileTabType obj pd) rows

/-- The loop `_.each(this.entityDetail.columns, ...)` of the constructor
`initialize`: the rows of `profileCollection.fullCollection` after every
column was visited. -/
def initializeRows (getProfileTabType : TabTypeFn) (columns : List Column) : List Attrs :=
  columns.foldl (loopBody getProfileTabType) []

/-- The variable `barClass` of the `nonNullData` formatter. -/
def nonNullDataBarClass (rawValue : Int) : String :=
  if rawValue < 50 then
    (if rawValue > 30 ∧ rawValue ≤ 50 then "progress-bar-warning" else "progress-bar-danger")
  else "progress-bar-success"

/-- The `fromRaw` of the `nonNullData` column. -/
def nonNullDataFromRaw (rawValue : Int) : String :=
  "<div class=\"progress cstm_progress\" title=\"" ++ toString rawValue
    ++ "%\"><div class=\"progress-bar " ++ nonNullDataBarClass rawValue
    ++ " cstm_success-bar progress-bar-striped\" style=\"width:" ++ toString rawValue
    ++ "%\">" ++ toString rawValue ++ "%</div></div>"

/-- The test `profileObj && profileObj.type === t` of the statistic
formatters. -/
def tabTypeIs (profileObj : Option ProfileTab) (t : String) : Bool :=
  match profileObj with
  | none => false
  | some p => p.type.isStr t

/-- The `fromRaw` of the `minValue` column; `model` is `model.toJSON()`. -/
def minValueFromRaw (getProfileTabType : TabTypeFn) (rawValue : Val) (model : Attrs) : Val :=
  let profileObj := getProfileTabType model true
  if tabTypeIs profileObj "numeric" then rawValue else Val.str "-"

/-- The `fromRaw` of the `maxValue` column. -/
def maxValueFromRaw (getProfileTabType : TabTypeFn) (rawValue : Val) (model : Attrs) : Val :=
  let profileObj := getProfileTabType model true
  if tabTypeIs profileObj "numeric" then rawValue else Val.str "-"

/-- The `fromRaw` of the `averageLength` column. -/
def averageLengthFromRaw (getProfileTabType : TabTypeFn) (rawValue : Val) (model : Attrs) : Val :=
  let profileObj := getProfileTabType model true
  if tabTypeIs profileObj "string" then rawValue else Val.str "-"

/-- The `fromRaw` of the `maxLength` column. -/
def maxLengthFromRaw (getProfileTabType : TabTypeFn) (rawValue : Val) (model : Attrs) : Val :=
  let profileObj := getProfileTabType model true
  if tabTypeIs profileObj "string" then rawValue else Val.str "-"

/-- The `fromRaw` of the `meanValue` column. -/
def meanValueFromRaw (getProfileTabType : TabTypeFn) (rawValue : Val) (model : Attrs) : Val :=
  let profileObj := getProfileTabType model true
  if tabTypeIs profileObj "numeric" then rawValue else Val.str "-"

/-- The `fromRaw` of the `medianValue` column. -/
def medianValueFromRaw (getProfileTabType : TabTypeFn) (rawValue : Val) (model : Attrs) : Val :=
  let profileObj := getProfileTabType model true
  if tabTypeIs profileObj "numeric" then rawValue else Val.str "-"

/-- The classification of an attribute object: `getProfileTabType` returns an
object whose `type` is the string `t`. -/
def ClassifiedAs (getProfileTabType : TabTypeFn) (o : Attrs) (t : String) : Prop :=
  ∃ tab, getProfileTabType o true = some tab ∧ tab.type = Val.str t

/-- A classifier for the examples: the type is read from the attribute
`distributionType`. The classifier of the source is outside the two views,
and every general theorem holds for an arbitrary one. -/
def sampleTabType : TabTypeFn := fun o _ =>
  match o.get "distributionType" with
  | .undefined => none
  | t => some { type := t, actualObj := [] }

/-- An example profile that `sampleTabType` classifies numeric. -/
def sampleNumericProfile : ProfileData :=
  ⟨[("distributionType", Val.str "numeric"), ("minValue", Val.num 3), ("maxValue", Val.num 8),
    ("meanValue", Val.num 5), ("medianValue", Val.num 4), ("averageLength", Val.num 2)]⟩

/-- An example column carrying `sampleNumericProfile`. -/
def sampleNumericColumn : Column :=
  { guid := "col-1", attributes := [("name", Val.str "price"), ("position", Val.num 1),
      ("maxLength", Val.num 6)],
    profileData := some sampleNumericProfile }

/-- An example profile that `sampleTabType` classifies string. -/
def sampleStringProfile : ProfileData :=
  ⟨[("distributionType", Val.str "string"), ("averageLength", Val.num 7),
    ("maxLength", Val.num 12), ("minValue", Val.num 1)]⟩

/-- An example column carrying `sampleStringProfile`. -/
def sampleStringColumn : Column :=
  { guid := "col-2", attributes := [("name", Val.str "city"), ("medianValue", Val.num 9)],
    profileData := some sampleStringProfile }

/-- The string that a concatenation `'' + v` makes of a value. -/
def Val.toStr : Val → String
  | .undefined => "undefined"
  | .null => "null"
  | .num n => toString n
  | .str s => s
  | .obj _ => "[object Object]"

/-- The string that `Array.prototype.join` makes of an element: `null` and
`undefined` give the empty string. -/
def Val.joinStr : Val → String
  | .undefined => ""
  | .null => ""
  | v => v.toStr

/-- The call `array.join(',')`. -/
def joinComma : List Val → String
  | [] => ""
  | [v] => v.joinStr
  | v :: rest => v.joinStr ++ "," ++ joinComma rest

/-- The `fromRaw` of the `distributionDecile` column; `model` is
`model.toJSON()`, and `getProfileTabType` is called without `skipData`. -/
def distributionDecileFromRaw (getProfileTabType : TabTypeFn) (_rawValue : Val)
    (model : Attrs) : String :=
  let sparkarray : List Val := []
  let distibutionObj := getProfileTabType model false
  let sparkarray := match distibutionObj with
    | none => sparkarray
    | some d => d.actualObj.foldl (fun arr obj => arr ++ [obj.get "count"]) sparkarray
  "<span data-guid=\"" ++ (model.get "guid").toStr
    ++ "\" class=\"sparklines\" sparkType=\"bar\" sparkBarColor=\"#38BB9B\" values=\""
    ++ joinComma sparkarray ++ "\"></span>"

/-- A classifier for the examples that also returns buckets: the type is read
from the attribute `distributionType` and, unless `skipData` is set, one bucket
is made of each entry of the object `distributionData`. -/
def sampleBucketTabType : TabTypeFn := fun o skipData =>
  match o.get "distributionType" with
  | .undefined => none
  | t => some { type := t,
                actualObj := if skipData then [] else
                  match o.get "distributionData" with
                  | .obj fields => fields.map (fun kv => [("value", Val.str kv.1), ("count", kv.2)])
                  | _ => [] }

/-- An example row with three buckets. -/
def sampleBucketRow : Attrs :=
  [("guid", Val.str "col-1"), ("distributionType", Val.str "numeric"),
   ("distributionData", Val.obj [("0", Val.num 4), ("1", Val.num 0), ("2", Val.num 11)])]

/-- An example column at a given position, with an empty profile. -/
def positionedColumn (guid : String) (position : Int) : Column :=
  { guid := guid, attributes := [("position", Val.num position)], profileData := some ⟨[]⟩ }

/-- An example profile that `sampleTabType` classifies numeric and whose keys
`name`, `averageLength`, `guid` and `position` are also keys of
`sampleOverlapColumn`. -/
def sampleOverlapProfile : ProfileData :=
  ⟨[("distributionType", Val.str "numeric"), ("name", Val.str "profile of price"),
    ("averageLength", Val.num 2), ("guid", Val.str "profile-guid"), ("position", Val.num 40)]⟩

/-- An example column carrying `sampleOverlapProfile`. -/
def sampleOverlapColumn : Column :=
  { guid := "col-3",
    attributes := [("name", Val.str "price"), ("averageLength", Val.num 4),
      ("guid", Val.str "attribute-guid"), ("position", Val.num 7)],
    profileData := some sampleOverlapProfile }

/-! ## GlossaryDetailLayoutView -/

/-- An entry of a record's `categories` list. -/
structure RelatedCategory where
  categoryGuid : String
  displayText : Option String
  deriving DecidableEq, Repr

/-- An entry of a record's `terms` list. -/
structure RelatedTerm where
  termGuid : String
  displayText : Option String
  deriving DecidableEq, Repr

/-- An entry of a record's `classifications` list. -/
structure Classification where
  typeName : String
  entityGuid : String
  deriving DecidableEq, Repr

/-- The `anchor` of a term or category. -/
structure Anchor where
  glossaryGuid : String
  deriving DecidableEq, Repr

/-- A glossary, term or category as plain data (`toJSON()` of a model, or the
payload of a fetch). An absent or `null` field is `none`, an absent list is
empty, and `parentCategory` holds the parent's guid. The keys that the object
has with the value `null` or with an empty list are listed in `emptyKeys`; a
key that is neither filled nor listed there is absent. -/
structure Record where
  guid : Option String
  name : Option String
  displayText : Option String
  qualifiedName : Option String
  shortDescription : Option String
  longDescription : Option String
  anchor : Option Anchor
  parentCategory : Option String
  categories : List RelatedCategory
  terms : List RelatedTerm
  classifications : List Classification
  emptyKeys : List String := []
  deriving DecidableEq, Repr

/-- The object `{}`. -/
def Record.empty : Record :=
  { guid := none, name := none, displayText := none, qualifiedName := none,
    shortDescription := none, longDescription := none, anchor := none,
    parentCategory := none, categories := [], terms := [], classifications := [] }

/-- Whether the object has the key `k`. -/
def Record.has (d : Record) (k : String) : Bool :=
  d.emptyKeys.contains k ||
  (if k = "guid" then d.guid.isSome
   else if k = "name" then d.name.isSome
   else if k = "displayText" then d.displayText.isSome
   else if k = "qualifiedName" then d.qualifiedName.isSome
   else if k = "shortDescription" then d.shortDescription.isSome
   else if k = "longDescription" then d.longDescription.isSome
   else if k = "anchor" then d.anchor.isSome
   else if k = "parentCategory" then d.parentCategory.isSome
   else if k = "categories" then !d.categories.isEmpty
   else if k = "terms" then !d.terms.isEmpty
   else if k = "classifications" then !d.classifications.isEmpty
   else false)

/-- The call `model.set(data)` on the attributes of a model: every key that
`data` has is set to its value in `data`, the other keys of the model are
kept. -/
def Record.set (model data : Record) : Record :=
  { guid := if data.has "guid" then data.guid else model.guid,
    name := if data.has "name" then data.name else model.name,
    displayText := if data.has "displayText" then data.displayText else model.displayText,
    qualifiedName :=
      if data.has "qualifiedName" then data.qualifiedName else model.qualifiedName,
    shortDescription :=
      if data.has "shortDescription" then data.shortDescription else model.shortDescription,
    longDescription :=
      if data.has "longDescription" then data.longDescription else model.longDescription,
    anchor := if data.has "anchor" then data.anchor else model.anchor,
    parentCategory :=
      if data.has "parentCategory" then data.parentCategory else model.parentCategory,
    categories := if data.has "categories" then data.categories else model.categories,
    terms := if data.has "terms" then data.terms else model.terms,
    classifications :=
      if data.has "classifications" then data.classifications else model.classifications,
    emptyKeys := data.emptyKeys ++ model.emptyKeys.filter (fun k => !data.has k) }

/-- A value handed to the jQuery call `text`. -/
inductive TextValue where
  | undefined : TextValue
  | null : TextValue
  | str (s : String) : TextValue
  deriving DecidableEq, Repr

/-- The value of a text key of the object: the string, `null` when the key is
there without one, `undefined` when the key is absent. -/
def Record.textValue (d : Record) (key : String) (field : Option String) : TextValue :=
  match field with
  | some s => TextValue.str s
  | none => if d.emptyKeys.contains key then TextValue.null else TextValue.undefined

/-- The shared `glossary.selectedItem`. -/
structure SelectedItem where
  type : Option String
  guid : Option String
  model : Option Record
  deriving DecidableEq, Repr

/-- An event triggered on `glossaryCollection`. -/
inductive Notification where
  /-- The event `"data:updated"` with a deep copy of the record. -/
  | dataUpdated (payload : Record) : Notification
  /-- The event `"update:details"` with `{ isGlossaryUpdate: true }`. -/
  | updateDetailsGlossary : Notification
  /-- The event `"update:details"` with `{ data: that.data }`. -/
  | updateDetails (data : Option Record) : Notification
  deriving DecidableEq, Repr

/-! ### The browser's parsing of inserted markup

jQuery's `prepend(html)` hands the string to the browser's HTML fragment
parser and inserts the nodes it returns; `find("span.btn")` matches the
`span` elements with the class `btn` at any depth. The parser is outside the
repository. It is modelled by a tokenizer after the HTML standard (tags,
attributes quoted and unquoted, comments, text) and a tree builder that keeps,
for every child node of the fragment, the source text it was read from. Not
modelled: character references, raw-text elements (`script`, `style`,
`textarea`, `title`), implied end tags, the re-opening of formatting elements,
table content and doctypes. -/

/-- A child node of one of the three list elements, with its markup: a `span`
element with the class `btn`, or any other node (an element, a text, a
comment). -/
inductive Node where
  | spanBtn (html : String) : Node
  | other (html : String) : Node
  deriving DecidableEq, Repr

/-- The selector test `span.btn`. -/
def Node.isSpanBtn : Node → Bool
  | .spanBtn _ => true
  | .other _ => false

/-- A token of the tokenizer with the source text it was read from; a start
tag carries whether it opens a `span` with the class `btn`. -/
inductive HtmlToken where
  | text (src : List Char) : HtmlToken
  | comment (src : List Char) : HtmlToken
  | startTag (name : String) (spanBtn : Bool) (src : List Char) : HtmlToken
  | endTag (name : String) (src : List Char) : HtmlToken
  deriving DecidableEq, Repr

/-- The states of the tokenizer. -/
inductive TokMode where
  | data | tagOpen | endTagOpen | tagName
  | beforeAttrName | attrName | afterAttrName | beforeAttrValue
  | valueDouble | valueSingle | valueUnquoted | afterValue | selfClosing
  | markup | markupDash | commentStart | commentStartDash
  | comment | commentDash | commentEnd | bogus
  deriving DecidableEq, Repr

/-- The tokenizer: its state, the text and the tag being read (reversed), the
attributes read so far and the tokens emitted (latest first). -/
structure Tokenizer where
  mode : TokMode
  text : List Char
  src : List Char
  isEnd : Bool
  name : List Char
  attrs : List (List Char × List Char)
  attr : Option (List Char × List Char)
  out : List HtmlToken

/-- ASCII whitespace of the HTML standard. -/
def isHtmlSpace (c : Char) : Bool :=
  c = '\x09' || c = '\x0a' || c = '\x0c' || c = '\x0d' || c = '\x20'

/-- The words of a `class` attribute; `word` is the word being read, reversed. -/
def classWords : List Char → List Char → List String
  | [], word => if word.isEmpty then [] else [String.mk word.reverse]
  | c :: rest, word =>
    if isHtmlSpace c then
      (if word.isEmpty then classWords rest [] else String.mk word.reverse :: classWords rest [])
    else classWords rest (c :: word)

/-- The attributes of the tag being read, in source order. -/
def Tokenizer.allAttrs (t : Tokenizer) : List (String × List Char) :=
  ((match t.attr with
    | some a => a :: t.attrs
    | none => t.attrs).reverse).map
    (fun (a : List Char × List Char) => (String.mk a.1.reverse, a.2.reverse))

/-- Whether the tag being read has the class `btn`; of two attributes with the
same name the first one counts. -/
def Tokenizer.hasClassBtn (t : Tokenizer) : Bool :=
  match t.allAttrs.lookup "class" with
  | some value => (classWords value []).contains "btn"
  | none => false

/-- The tokens emitted so far together with the pending text. -/
def Tokenizer.flushed (t : Tokenizer) : List HtmlToken :=
  if t.text.isEmpty then t.out else HtmlToken.text t.text.reverse :: t.out

/-- The tokenizer back in the data state after `token` was emitted. -/
def Tokenizer.emit (t : Tokenizer) (token : HtmlToken) : Tokenizer :=
  { mode := .data, text := [], src := [], isEnd := false, name := [], attrs := [],
    attr := none, out := token :: t.flushed }

/-- The end of a tag at `>`. -/
def Tokenizer.emitTag (t : Tokenizer) (c : Char) : Tokenizer :=
  let src := (c :: t.src).reverse
  let name := String.mk t.name.reverse
  if t.isEnd then t.emit (HtmlToken.endTag name src)
  else t.emit (HtmlToken.startTag name (name == "span" && t.hasClassBtn) src)

/-- The start of a new attribute whose name begins with `c`. -/
def Tokenizer.newAttr (t : Tokenizer) (c : Char) : Tokenizer :=
  { t with mode := .attrName, src := c :: t.src,
           attrs := (match t.attr with
             | some a => a :: t.attrs
             | none => t.attrs),
           attr := some ([c.toLower], []) }

/-- The character `c` read in the state "before attribute name". -/
def Tokenizer.beforeAttrNameOn (t : Tokenizer) (c : Char) : Tokenizer :=
  if isHtmlSpace c then { t with mode := .beforeAttrName, src := c :: t.src }
  else if c = '/' then { t with mode := .selfClosing, src := c :: t.src }
  else if c = '>' then t.emitTag c
  else t.newAttr c

/-- The attribute being read with `c` added to its name or to its value. -/
def Tokenizer.pushAttr (t : Tokenizer) (c : Char) (toValue : Bool) : Tokenizer :=
  { t with src := c :: t.src,
           attr := match t.attr with
             | some a => if toValue then some (a.1, c :: a.2) else some (c.toLower :: a.1, a.2)
             | none => none }

/-- One step of the tokenizer on the character `c`. -/
def Tokenizer.step (t : Tokenizer) (c : Char) : Tokenizer :=
  match t.mode with
  | .data =>
    if c = '<' then { t with mode := .tagOpen, src := [c] } else { t with text := c :: t.text }
  | .tagOpen =>
    if c = '!' then { t with mode := .markup, src := c :: t.src }
    else if c = '/' then { t with mode := .endTagOpen, src := c :: t.src }
    else if c.isAlpha then
      { t with mode := .tagName, isEnd := false, name := [c.toLower], src := c :: t.src }
    else if c = '?' then { t with mode := .bogus, src := c :: t.src }
    else if c = '<' then { t with mode := .tagOpen, text := t.src ++ t.text, src := [c] }
    else { t with mode := .data, text := c :: (t.src ++ t.text), src := [] }
  | .endTagOpen =>
    if c.isAlpha then
      { t with mode := .tagName, isEnd := true, name := [c.toLower], src := c :: t.src }
    else if c = '>' then { t with mode := .data, src := [] }
    else { t with mode := .bogus, src := c :: t.src }
  | .tagName =>
    if isHtmlSpace c then { t with mode := .beforeAttrName, src := c :: t.src }
    else if c = '/' then { t with mode := .selfClosing, src := c :: t.src }
    else if c = '>' then t.emitTag c
    else { t with name := c.toLower :: t.name, src := c :: t.src }
  | .beforeAttrName => t.beforeAttrNameOn c
  | .attrName =>
    if isHtmlSpace c then { t with mode := .afterAttrName, src := c :: t.src }
    else if c = '/' then { t with mode := .selfClosing, src := c :: t.src }
    else if c = '>' then t.emitTag c
    else if c = '=' then { t with mode := .beforeAttrValue, src := c :: t.src }
    else t.pushAttr c false
  | .afterAttrName =>
    if isHtmlSpace c then { t with src := c :: t.src }
    else if c = '/' then { t with mode := .selfClosing, src := c :: t.src }
    else if c = '=' then { t with mode := .beforeAttrValue, src := c :: t.src }
    else if c = '>' then t.emitTag c
    else t.newAttr c
  | .beforeAttrValue =>
    if isHtmlSpace c then { t with src := c :: t.src }
    else if c = '\x22' then { t with mode := .valueDouble, src := c :: t.src }
    else if c = '\x27' then { t with mode := .valueSingle, src := c :: t.src }
    else if c = '>' then t.emitTag c
    else { t.pushAttr c true with mode := .valueUnquoted }
  | .valueDouble =>
    if c = '\x22' then { t with mode := .afterValue, src := c :: t.src } else t.pushAttr c true
  | .valueSingle =>
    if c = '\x27' then { t with mode := .afterValue, src := c :: t.src } else t.pushAttr c true
  | .valueUnquoted =>
    if isHtmlSpace c then { t with mode := .beforeAttrName, src := c :: t.src }
    else if c = '>' then t.emitTag c
    else t.pushAttr c true
  | .afterValue => t.beforeAttrNameOn c
  | .selfClosing => t.beforeAttrNameOn c
  | .markup =>
    if c = '-' then { t with mode := .markupDash, src := c :: t.src }
    else if c = '>' then t.emit (HtmlToken.comment (c :: t.src).reverse)
    else { t with mode := .bogus, src := c :: t.src }
  | .markupDash =>
    if c = '-' then { t with mode := .commentStart, src := c :: t.src }
    else if c = '>' then t.emit (HtmlToken.comment (c :: t.src).reverse)
    else { t with mode := .bogus, src := c :: t.src }
  | .commentStart =>
    if c = '-' then { t with mode := .commentStartDash, src := c :: t.src }
    else if c = '>' then t.emit (HtmlToken.comment (c :: t.src).reverse)
    else { t with mode := .comment, src := c :: t.src }
  | .commentStartDash =>
    if c = '-' then { t with mode := .commentEnd, src := c :: t.src }
    else if c = '>' then t.emit (HtmlToken.comment (c :: t.src).reverse)
    else { t with mode := .comment, src := c :: t.src }
  | .comment =>
    if c = '-' then { t with mode := .commentDash, src := c :: t.src }
    else { t with src := c :: t.src }
  | .commentDash =>
    if c = '-' then { t with mode := .commentEnd, src := c :: t.src }
    else { t with mode := .comment, src := c :: t.src }
  | .commentEnd =>
    if c = '>' then t.emit (HtmlToken.comment (c :: t.src).reverse)
    else if c = '-' then { t with src := c :: t.src }
    else { t with mode := .comment, src := c :: t.src }
  | .bogus =>
    if c = '>' then t.emit (HtmlToken.comment (c :: t.src).reverse)
    else { t with src := c :: t.src }

/-- The tokens at the end of the input: a tag that is not finished is
dropped, a comment that is not finished is emitted. -/
def Tokenizer.finish (t : Tokenizer) : List HtmlToken :=
  match t.mode with
  | .data => t.flushed.reverse
  | .tagOpen => ({ t with text := t.src ++ t.text }).flushed.reverse
  | .endTagOpen => ({ t with text := t.src ++ t.text }).flushed.reverse
  | .markup | .markupDash | .commentStart | .commentStartDash
  | .comment | .commentDash | .commentEnd | .bogus =>
    (HtmlToken.comment t.src.reverse :: t.flushed).reverse
  | _ => t.flushed.reverse

/-- The tokens of a markup string. -/
def tokenize (html : String) : List HtmlToken :=
  (html.toList.foldl Tokenizer.step
    { mode := .data, text := [], src := [], isEnd := false, name := [], attrs := [],
      attr := none, out := [] }).finish

/-- The elements that have no content and no end tag. -/
def voidElements : List String :=
  ["area", "base", "basefont", "bgsound", "br", "col", "embed", "frame", "hr", "img", "input",
   "keygen", "link", "meta", "param", "source", "track", "wbr"]

/-- The formatting elements of the HTML standard. -/
def formattingElements : List String :=
  ["a", "b", "big", "code", "em", "font", "i", "nobr", "s", "small", "strike", "strong", "tt",
   "u"]

/-- The elements that bound the scope in which an end tag looks for its
element. -/
def scopeElements : List String :=
  ["applet", "caption", "html", "table", "td", "th", "marquee", "object", "template"]

/-- The special elements of the HTML standard. -/
def specialElements : List String :=
  ["address", "applet", "area", "article", "aside", "base", "basefont", "bgsound",
   "blockquote", "body", "br", "button", "caption", "center", "col", "colgroup", "dd",
   "details", "dir", "div", "dl", "dt", "embed", "fieldset", "figcaption", "figure", "footer",
   "form", "frame", "frameset", "h1", "h2", "h3", "h4", "h5", "h6", "head", "header", "hgroup",
   "hr", "html", "iframe", "img", "input", "keygen", "li", "link", "listing", "main", "marquee",
   "menu", "meta", "nav", "noembed", "noframes", "noscript", "object", "ol", "p", "param",
   "plaintext", "pre", "script", "search", "section", "select", "source", "style", "summary",
   "table", "tbody", "td", "template", "textarea", "tfoot", "th", "thead", "title", "tr",
   "track", "ul", "wbr", "xmp"]

/-- The stack of open elements (innermost first) after the end tag `name`, or
`none` when the end tag is ignored: the elements above the one it names are
closed with it, and the search stops at an element that bounds it. -/
def closeElement (name : String) : List String → Option (List String)
  | [] => none
  | top :: rest =>
    if top = name then some rest
    else if (if specialElements.contains name || formattingElements.contains name
             then scopeElements.contains top else specialElements.contains top)
    then none
    else closeElement name rest

/-- The tree builder at the level of the fragment: the stack of open elements,
the markup of the child node being read, whether it is a `span.btn`, and the
child nodes read (latest first). -/
structure Builder where
  stack : List String
  node : List Char
  nodeBtn : Bool
  out : List Node

/-- The child node that was being read, now complete. -/
def Builder.close (b : Builder) (src : List Char) : Builder :=
  let html := String.mk (b.node ++ src)
  { stack := [], node := [], nodeBtn := false,
    out := (if b.nodeBtn then Node.spanBtn html else Node.other html) :: b.out }

/-- One step of the tree builder. -/
def Builder.step (b : Builder) : HtmlToken → Builder
  | .text src =>
    if b.stack.isEmpty then { b with out := Node.other (String.mk src) :: b.out }
    else { b with node := b.node ++ src }
  | .comment src =>
    if b.stack.isEmpty then { b with out := Node.other (String.mk src) :: b.out }
    else { b with node := b.node ++ src }
  | .startTag name spanBtn src =>
    if voidElements.contains name then
      (if b.stack.isEmpty then { b with out := Node.other (String.mk src) :: b.out }
       else { b with node := b.node ++ src })
    else if b.stack.isEmpty then { b with stack := [name], node := src, nodeBtn := spanBtn }
    else { b with stack := name :: b.stack, node := b.node ++ src }
  | .endTag name src =>
    if b.stack.isEmpty then b
    else match closeElement name b.stack with
      | none => { b with node := b.node ++ src }
      | some [] => b.close src
      | some stack => { b with stack := stack, node := b.node ++ src }

/-- The child nodes that the parser makes of a markup string; an element still
open at the end of the string is closed there. -/
def parseFragment (html : String) : List Node :=
  let b := (tokenize html).foldl Builder.step
    { stack := [], node := [], nodeBtn := false, out := [] }
  (if b.stack.isEmpty then b.out else (b.close []).out).reverse

/-- The removal of every `span.btn` element from a token stream: the stack of
open elements, the height of the stack under the element being removed, and
the markup kept. -/
structure Remover where
  stack : List String
  dropping : Option Nat
  kept : List Char

/-- One step of the removal. -/
def Remover.step (r : Remover) : HtmlToken → Remover
  | .text src => if r.dropping.isSome then r else { r with kept := r.kept ++ src }
  | .comment src => if r.dropping.isSome then r else { r with kept := r.kept ++ src }
  | .startTag name spanBtn src =>
    match r.dropping with
    | some _ => if voidElements.contains name then r else { r with stack := name :: r.stack }
    | none =>
      if voidElements.contains name then { r with kept := r.kept ++ src }
      else if spanBtn then
        { r with stack := name :: r.stack, dropping := some r.stack.length }
      else { r with stack := name :: r.stack, kept := r.kept ++ src }
  | .endTag name src =>
    match r.dropping with
    | some height =>
      (match closeElement name r.stack with
       | none => r
       | some stack =>
         if stack.length ≤ height then { r with stack := stack, dropping := none }
         else { r with stack := stack })
    | none =>
      (match closeElement name r.stack with
       | none => { r with kept := r.kept ++ src }
       | some stack => { r with stack := stack, kept := r.kept ++ src })

/-- The markup of a node without the `span.btn` elements inside it. -/
def withoutSpanBtn (html : String) : String :=
  String.mk ((tokenize html).foldl Remover.step
    { stack := [], dropping := none, kept := [] }).kept

/-- The calls `el.find("span.btn").remove()`: the child nodes that are
`span.btn` elements go, and so do the `span.btn` elements inside the others. -/
def removeSpanBtn (el : List Node) : List Node :=
  el.filterMap (fun n =>
    match n with
    | .spanBtn _ => none
    | .other html => some (Node.other (withoutSpanBtn html)))

/-- The call `el.prepend(html)`. -/
def prependHtml (el : List Node) (html : String) : List Node :=
  parseFragment html ++ el

/-- The elements of the template that the view writes to. -/
structure Ui where
  title : String
  shortDescription : String
  longDescription : String
  categoryList : List Node
  termList : List Node
  tagList : List Node
  loaderShown : Bool
  deriving DecidableEq, Repr

/-- The view together with the objects it shares with other views
(`glossaryCollection`, `glossary`) and a log of what it asked of its
collaborators. -/
structure ViewState where
  guid : String
  isGlossaryView : Bool
  isTermView : Bool
  isCategoryView : Bool
  isDestroyed : Bool
  data : Option Record
  ui : Ui
  /-- The regions in which a sub-view was shown, in order. -/
  subViews : List String
  /-- The models of `glossaryCollection.fullCollection`, as records. -/
  fullCollection : List Record
  selectedItem : SelectedItem
  /-- The events triggered on `glossaryCollection`, in order. -/
  triggered : List Notification
  /-- The urls passed to `Utils.setUrl`, in order. -/
  urls : List String
  /-- The number of handlers that the view has registered with `listenTo` for
  `reset` on the full collection. -/
  resetListeners : Nat
  /-- The api calls issued: function key and guid. -/
  requests : List (String × String)
  deriving DecidableEq, Repr

/-- The replacement of one character by `_.escape` (underscore's escape map). -/
def escapeChar (c : Char) : String :=
  if c = '&' then "&amp;"
  else if c = '<' then "&lt;"
  else if c = '>' then "&gt;"
  else if c = '\x22' then "&quot;"
  else if c = '\x27' then "&#x27;"
  else if c = '\x60' then "&#x60;"
  else c.toString

/-- The call `_.escape(string)`; `undefined` gives the empty string. -/
def escape (string : Option String) : String :=
  String.join ((string.getD "").toList.map escapeChar)

/-- The markup added to `categories` for one entry in `generateCategories`. -/
def categoryMarkup (val : RelatedCategory) : String :=
  let name := escape val.displayText
  "<span data-guid=\"" ++ val.categoryGuid
    ++ "\"\" class=\"btn btn-action btn-sm btn-icon btn-blue\" title=" ++ escape (some name)
    ++ " data-id=\"categoryClick\"><span>" ++ name
    ++ "</span><i class=\"fa fa-close\" data-id=\"removeCategory\" data-type=\"category\" title=\"Remove Category\"></i></span>"

/-- The markup added to `terms` for one entry in `generateTerm`. -/
def termMarkup (val : RelatedTerm) : String :=
  let name := escape val.displayText
  "<span data-guid=\"" ++ val.termGuid
    ++ "\"\" class=\"btn btn-action btn-sm btn-icon btn-blue\" title=" ++ escape (some name)
    ++ " data-id=\"termClick\"><span>" ++ name
    ++ "</span><i class=\"fa fa-close\" data-id=\"removeTerm\" data-type=\"term\" title=\"Remove Term\"></i></span>"

/-- The markup added to `tagData` for one entry in `generateTag`. -/
def tagMarkup (val : Classification) : String :=
  "<span class=\"btn btn-action btn-sm btn-icon btn-blue\" title=" ++ val.typeName
    ++ " data-id=\"tagClickTerm\"><span>" ++ val.typeName
    ++ "</span><i class=\"fa fa-close\" data-id=\"removeTagTerm\" data-type=\"tag\" title=\"Remove Tag\"></i></span>"

/-- The string `categories` of `generateCategories` after the loop. -/
def generateCategoriesHtml (data : List RelatedCategory) : String :=
  data.foldl (fun categories val => categories ++ categoryMarkup val) ""

/-- The string `terms` of `generateTerm` after the loop. -/
def generateTermHtml (data : List RelatedTerm) : String :=
  data.foldl (fun terms val => terms ++ termMarkup val) ""

/-- The string `tagData` of `generateTag` after the loop. -/
def generateTagHtml (tagObject : List Classification) : String :=
  tagObject.foldl (fun tagData val => tagData ++ tagMarkup val) ""

/-- The method `generateCategories`: the string is built, the `span.btn`
elements of the list are removed, and the string is prepended. -/
def generateCategories (v : ViewState) (data : List RelatedCategory) : ViewState :=
  let categories := generateCategoriesHtml data
  { v with ui := { v.ui with
      categoryList := prependHtml (removeSpanBtn v.ui.categoryList) categories } }

/-- The method `generateTerm`. -/
def generateTerm (v : ViewState) (data : List RelatedTerm) : ViewState :=
  let terms := generateTermHtml data
  { v with ui := { v.ui with
      termList := prependHtml (removeSpanBtn v.ui.termList) terms } }

/-- The method `generateTag`. -/
def generateTag (v : ViewState) (tagObject : List Classification) : ViewState :=
  let tagData := generateTagHtml tagObject
  { v with ui := { v.ui with
      tagList := prependHtml (removeSpanBtn v.ui.tagList) tagData } }

/-- Truthiness of a string field: absent and empty are falsy. -/
def truthyStr : Option String → Bool
  | none => false
  | some s => s != ""

/-- The expression `a || b` on string fields. -/
def orStr (a b : Option String) : Option String := if truthyStr a then a else b

/-- The jQuery call `el.text(value)`: with `undefined` nothing is set, with
`null` the element is emptied. -/
def setText (current : String) (value : TextValue) : String :=
  match value with
  | .undefined => current
  | .null => ""
  | .str s => s

/-- The expression `data.name || data.displayText || data.qualifiedName`: the
name or else the displayText when one of them is a non-empty string, and
otherwise the value of `qualifiedName`, whatever it is. -/
def titleValue (d : Record) : TextValue :=
  match orStr d.name d.displayText with
  | some s => if s != "" then TextValue.str s else d.textValue "qualifiedName" d.qualifiedName
  | none => d.textValue "qualifiedName" d.qualifiedName

/-- The method `renderDetails`. -/
def renderDetails (v : ViewState) (data : Option Record) : ViewState :=
  let v0 := { v with ui := { v.ui with loaderShown := false } }
  match data with
  | some d =>
    let v1 := { v0 with ui := { v0.ui with
      title := setText v0.ui.title (titleValue d) } }
    let v2 := { v1 with ui := { v1.ui with
      shortDescription := setText v1.ui.shortDescription
        (d.textValue "shortDescription" d.shortDescription) } }
    let v3 := { v2 with ui := { v2.ui with
      longDescription := setText v2.ui.longDescription
        (d.textValue "longDescription" d.longDescription) } }
    generateTag (generateTerm (generateCategories v3 d.categories) d.terms) d.classifications
  | none => { v0 with ui := { v0.ui with title := "No Data found" } }

/-- The call `fullCollection.get(id)`: the model whose guid is `id`. -/
def collectionGet (models : List Record) (id : String) : Option Record :=
  models.find? (fun m => m.guid == some id)

/-- The collection after the model found by `collectionGet` was changed to
`m`; the models are mutable objects held by the collection. -/
def collectionPut (models : List Record) (id : String) (m : Record) : List Record :=
  match models with
  | [] => []
  | x :: rest => if x.guid == some id then m :: rest else x :: collectionPut rest id m

/-- The method `getData`. A `TypeError` is `Except.error`. -/
def getData (v : ViewState) : Except String ViewState :=
  if v.isGlossaryView then
    if v.fullCollection.length != 0 then
      match collectionGet v.fullCollection v.guid with
      | none => .error "TypeError: fullCollection.get(...) is undefined"
      | some m =>
        let v1 := { v with data := some m }
        let v2 := { v1 with triggered := v1.triggered ++ [Notification.dataUpdated m] }
        .ok (renderDetails v2 v2.data)
    else
      .ok { v with resetListeners := v.resetListeners + 1 }
  else
    let v1 := { v with ui := { v.ui with loaderShown := true } }
    let getApiFunctionKey := if v1.isTermView then "getTerm" else "getCategory"
    .ok { v1 with requests := v1.requests ++ [(getApiFunctionKey, v1.guid)] }

/-- The handler that `getData` registers for `reset` on the full collection. -/
def onReset (v : ViewState) : ViewState :=
  let foundGlossary := collectionGet v.fullCollection v.guid
  let v1 := { v with data := foundGlossary }
  let v2 := { v1 with
    triggered := v1.triggered ++ [Notification.dataUpdated (v1.data.getD Record.empty)] }
  let v3 := if v2.data.isNone then
      { v2 with selectedItem := { type := none, guid := none, model := none },
                urls := v2.urls ++ ["#!/glossary"] }
    else v2
  renderDetails v3 v3.data

/-- The event `reset` of the full collection, now holding `models`: every
handler that the view has registered runs. The handlers of a destroyed view
were removed by `destroy`; one that a `getData` call registers after that is
a new subscription and runs like any other. -/
def resetEvent (v : ViewState) (models : List Record) : ViewState :=
  Nat.iterate onReset v.resetListeners { v with fullCollection := models }

/-- The method `destroy` that the view inherits from Marionette, as far as the
state goes: `isDestroyed` is set and `stopListening` removes every handler that
the view registered with `listenTo`. -/
def destroy (v : ViewState) : ViewState :=
  { v with isDestroyed := true, resetListeners := 0 }

/-- The callback `ajaxOptions.success` of the term or category fetch. -/
def fetchSuccess (v : ViewState) (data : Record) : ViewState :=
  if v.isDestroyed then v
  else
    let v1 := if v.isTermView then
        { v with subViews := v.subViews ++
            ["RSearchResultLayoutView", "RTagTableLayoutView", "RRelationLayoutView"] }
      else v
    let v2 := { v1 with data := some data }
    let v3 := { v2 with triggered := v2.triggered ++ [Notification.dataUpdated data] }
    let v4 := { v3 with selectedItem := { v3.selectedItem with model := some data } }
    let v5 := { v4 with selectedItem := { v4.selectedItem with guid := data.guid } }
    renderDetails v5 (some data)

/-- The loop `_.find(glossary.get('terms'), ...)` of the edit callback: each
entry whose `termGuid` equals `guid` gets `name` as `displayText`. -/
def patchTerms (terms : List RelatedTerm) (guid name : Option String) : List RelatedTerm :=
  terms.map (fun obj => if some obj.termGuid == guid then { obj with displayText := name } else obj)

/-- The loop `_.find(glossary.get('categories'), ...)` of the edit callback. -/
def patchCategories (categories : List RelatedCategory) (guid name : Option String) :
    List RelatedCategory :=
  categories.map (fun obj =>
    if some obj.categoryGuid == guid then { obj with displayText := name } else obj)

/-- The `callback` that the click handler of `editButton` hands to the editor,
run when the edit is confirmed with `data` (for a glossary, `sModel.toJSON()`).
A `TypeError` is `Except.error`. -/
def editCallback (v : ViewState) (data : Record) : Except String ViewState :=
  if v.isGlossaryView then
    match collectionGet v.fullCollection v.guid with
    | none => .error "TypeError: model is undefined"
    | some model =>
      let v1 := { v with
        fullCollection := collectionPut v.fullCollection v.guid (model.set data) }
      let v2 := { v1 with data := some data }
      let v3 := renderDetails v2 v2.data
      .ok { v3 with triggered := v3.triggered ++ [Notification.updateDetailsGlossary] }
  else
    match v.data with
    | none => .error "TypeError: that.data is undefined"
    | some old =>
      let patched : Except String ViewState :=
        if data.name != old.name then
          match data.anchor with
          | none => .error "TypeError: data.anchor is undefined"
          | some anchor =>
            let glossary := collectionGet v.fullCollection anchor.glossaryGuid
            let patchedCollection : Except String (List Record) :=
              if v.isTermView then
                match glossary with
                | none => .error "TypeError: glossary is undefined"
                | some g => .ok (collectionPut v.fullCollection anchor.glossaryGuid
                    { g with terms := patchTerms g.terms data.guid data.name })
              else if !(data.parentCategory.isSome) then
                match glossary with
                | none => .error "TypeError: glossary is undefined"
                | some g => .ok (collectionPut v.fullCollection anchor.glossaryGuid
                    { g with categories := patchCategories g.categories data.guid data.name })
              else .ok v.fullCollection
            match patchedCollection with
            | .error e => .error e
            | .ok models =>
              .ok { v with fullCollection := models,
                           triggered := v.triggered ++ [Notification.updateDetails v.data] }
        else .ok v
      match patched with
      | .error e => .error e
      | .ok v1 =>
        let v2 := { v1 with data := some data }
        .ok (renderDetails v2 v2.data)

/-- An example glossary with one term and one category. -/
def sampleGlossary : Record :=
  { Record.empty with
    guid := some "g1", name := some "Old", qualifiedName := some "Old",
    terms := [{ termGuid := "t1", displayText := some "Old" }],
    categories := [{ categoryGuid := "k1", displayText := some "Cat" }] }

/-- An example term of `sampleGlossary`. -/
def sampleTerm : Record :=
  { Record.empty with
    guid := some "t1", name := some "Old", qualifiedName := some "Old@Old",
    anchor := some { glossaryGuid := "g1" },
    categories := [{ categoryGuid := "k1", displayText := some "Cat" }],
    classifications := [{ typeName := "PII", entityGuid := "t1" }] }

/-- The template before anything was rendered: an add button in each list. -/
def sampleUi : Ui :=
  { title := "", shortDescription := "", longDescription := "",
    categoryList := [Node.other "<button data-id=\"addCategory\"></button>"],
    termList := [Node.other "<button data-id=\"addTerm\"></button>"],
    tagList := [Node.other "<button data-id=\"addTagTerm\"></button>"],
    loaderShown := true }

/-- An example glossary view on `g1`, the collection holding `sampleGlossary`. -/
def sampleGlossaryView : ViewState :=
  { guid := "g1", isGlossaryView := true, isTermView := false, isCategoryView := false,
    isDestroyed := false, data := some sampleGlossary, ui := sampleUi, subViews := [],
    fullCollection := [sampleGlossary],
    selectedItem := { type := some "Glossary", guid := some "g1", model := none },
    triggered := [], urls := [], resetListeners := 0, requests := [] }

/-- An example term view on `t1`, its record loaded. -/
def sampleTermView : ViewState :=
  { guid := "t1", isGlossaryView := false, isTermView := true, isCategoryView := false,
    isDestroyed := false, data := some sampleTerm, ui := sampleUi, subViews := [],
    fullCollection := [sampleGlossary],
    selectedItem := { type := some "GlossaryTerm", guid := some "t1", model := none },
    triggered := [], urls := [], resetListeners := 0, requests := [] }

/-- An example category of `sampleGlossary` that has a parent category. -/
def sampleChildCategory : Record :=
  { Record.empty with
    guid := some "k1", name := some "Cat", qualifiedName := some "Cat@Old",
    anchor := some { glossaryGuid := "g1" }, parentCategory := some "k0" }

/-- An example category view on `k1`, its record loaded. -/
def sampleCategoryView : ViewState :=
  { guid := "k1", isGlossaryView := false, isTermView := false, isCategoryView := true,
    isDestroyed := false, data := some sampleChildCategory, ui := sampleUi, subViews := [],
    fullCollection := [sampleGlossary],
    selectedItem := { type := some "GlossaryCategory", guid := some "k1", model := none },
    triggered := [], urls := [], resetListeners := 0, requests := [] }

/-- An example glossary view on `g1` whose collection is not loaded yet. -/
def sampleUnloadedGlossaryView : ViewState :=
  { sampleGlossaryView with data := none, fullCollection := [] }

/-! # Theorems -/

/-! ## Lemmas on the row store and the constructor loop -/

theorem addRow_perm (key : Attrs → Val) (row : Attrs) (rows : List Attrs) :
    (addRow key row rows).Perm (row :: rows) := by
  induction rows with
  | nil => simp [addRow]
  | cons r rest ih =>
    unfold addRow
    split
    · exact List.Perm.refl _
    · exact (List.Perm.cons r ih).trans (List.Perm.swap row r rest)

theorem foldl_loopBody_perm (g : TabTypeFn) (columns : List Column) (acc : List Attrs) :
    (columns.foldl (loopBody g) acc).Perm
      (columns.filterMap (fun obj => obj.profileData.map (buildRow g obj)) ++ acc) := by
  induction columns generalizing acc with
  | nil => simp
  | cons c cs ih =>
    simp only [List.foldl_cons]
    refine (ih _).trans ?_
    cases hp : c.profileData with
    | none => simp [loopBody, hp, List.filterMap_cons]
    | some pd =>
      simp only [loopBody, hp, List.filterMap_cons, Option.map_some']
      refine (List.Perm.append_left _ (addRow_perm _ _ _)).trans ?_
      simp

theorem initializeRows_perm (g : TabTypeFn) (columns : List Column) :
    (initializeRows g columns).Perm
      (columns.filterMap (fun obj => obj.profileData.map (buildRow g obj))) := by
  simpa [initializeRows] using foldl_loopBody_perm g columns []

theorem buildRow_mem_initializeRows (g : TabTypeFn) (columns : List Column) (obj : Column)
    (pd : ProfileData) (hmem : obj ∈ columns) (hpd : obj.profileData = some pd) :
    buildRow g obj pd ∈ initializeRows g columns := by
  rw [(initializeRows_perm g columns).mem_iff, List.mem_filterMap]
  exact ⟨obj, hmem, by simp [hpd]⟩

/-! ## C1 -/

/-- C1: the row collection built by the constructor holds exactly the rows of
the columns whose `profileData` is not null: it is a rearrangement of the rows
built from those columns, one each, and nothing else, so its length is the
number of columns with non-null `profileData`. -/
theorem initializeRows_rows_of_profiled_columns (g : TabTypeFn) (columns : List Column) :
    (initializeRows g columns).Perm
      (columns.filterMap (fun obj => obj.profileData.map (buildRow g obj))) ∧
    (initializeRows g columns).length =
      columns.countP (fun obj => obj.profileData.isSome) := by
  refine ⟨initializeRows_perm g columns, ?_⟩
  rw [(initializeRows_perm g columns).length_eq, List.length_filterMap_eq_countP]
  congr 1
  funext obj
  cases obj.profileData <;> simp

/-! ## C2 -/

/-- C2: the columns at positions 5 and 0, in this order and both with profile
data, give the rows in the order 5, 0: the comparator reads position 0 as
missing and sorts that row by the key 999, so the rows are not in
non-decreasing order of position. -/
theorem initializeRows_position_zero_after_five :
    (initializeRows sampleTabType
      [ { guid := "c5", attributes := [("position", Val.num 5)], profileData := some ⟨[]⟩ },
        { guid := "c0", attributes := [("position", Val.num 0)], profileData := some ⟨[]⟩ } ]).map
      (fun row => (row.get "guid", row.get "position", comparator row))
    = [ (Val.str "c5", Val.num 5, Val.num 5), (Val.str "c0", Val.num 0, Val.num 999) ] := by
  rfl

/-! ## C3 -/

/-- C3, as stated, fails at 30: the value 30 lies in the range 30 <= v < 50
and the formatter chooses the danger class for it, not the warning class. -/
theorem nonNullDataBarClass_thirty_not_warning :
    (30 : Int) ≤ 30 ∧ (30 : Int) < 50 ∧
    nonNullDataBarClass 30 ≠ "progress-bar-warning" ∧
    nonNullDataBarClass 30 = "progress-bar-danger" := by
  decide

/-- C3, amended: for every value v with 30 < v < 50 the `nonNullData`
formatter chooses the warning class, and the cell it returns carries that
class; the value 30 gets the danger class. -/
theorem nonNullDataBarClass_warning (v : Int) (hlo : 30 < v) (hhi : v < 50) :
    nonNullDataBarClass v = "progress-bar-warning" ∧
    nonNullDataFromRaw v =
      "<div class=\"progress cstm_progress\" title=\"" ++ toString v
        ++ "%\"><div class=\"progress-bar " ++ "progress-bar-warning"
        ++ " cstm_success-bar progress-bar-striped\" style=\"width:" ++ toString v
        ++ "%\">" ++ toString v ++ "%</div></div>" ∧
    nonNullDataBarClass 30 = "progress-bar-danger" := by
  have hclass : nonNullDataBarClass v = "progress-bar-warning" := by
    unfold nonNullDataBarClass
    rw [if_pos hhi, if_pos ⟨hlo, le_of_lt hhi⟩]
  refine ⟨hclass, ?_, by decide⟩
  unfold nonNullDataFromRaw
  rw [hclass]

/-- C3, amended, at the value 31. -/
theorem nonNullDataBarClass_warning_witness :
    nonNullDataBarClass 31 = "progress-bar-warning" ∧
    nonNullDataFromRaw 31 =
      "<div class=\"progress cstm_progress\" title=\"" ++ toString (31 : Int)
        ++ "%\"><div class=\"progress-bar " ++ "progress-bar-warning"
        ++ " cstm_success-bar progress-bar-striped\" style=\"width:" ++ toString (31 : Int)
        ++ "%\">" ++ toString (31 : Int) ++ "%</div></div>" ∧
    nonNullDataBarClass 30 = "progress-bar-danger" :=
  nonNullDataBarClass_warning 31 (by decide) (by decide)

/-! ## Lemmas on `changeValueObj` and `buildRow` -/

theorem changeValueObj_numeric (tab : ProfileTab) (h : tab.type = Val.str "numeric") :
    changeValueObj (some tab) = [("averageLength", Val.num 0), ("maxLength", Val.num 0)] := by
  simp [changeValueObj, h, Val.truthy, Val.isStr, extend]

theorem changeValueObj_string (tab : ProfileTab) (h : tab.type = Val.str "string") :
    changeValueObj (some tab) = [("minValue", Val.num 0), ("maxValue", Val.num 0),
      ("meanValue", Val.num 0), ("medianValue", Val.num 0)] := by
  simp [changeValueObj, h, Val.truthy, Val.isStr, extend]

theorem changeValueObj_date (tab : ProfileTab) (h : tab.type = Val.str "date") :
    changeValueObj (some tab) = [("averageLength", Val.num 0), ("maxLength", Val.num 0),
      ("minValue", Val.num 0), ("maxValue", Val.num 0),
      ("meanValue", Val.num 0), ("medianValue", Val.num 0)] := by
  simp [changeValueObj, h, Val.truthy, Val.isStr, extend]

theorem lookup_buildRow (g : TabTypeFn) (obj : Column) (pd : ProfileData) (k : String)
    (hg : k ≠ "guid") (hp : k ≠ "position") :
    List.lookup k (buildRow g obj pd) =
      ((List.lookup k (changeValueObj (g pd.attributes true))).or
        ((List.lookup k pd.attributes).or (List.lookup k obj.allAttributes))) := by
  have h1 : (k == "guid") = false := by simpa using hg
  have h2 : (k == "position") = false := by simpa using hp
  simp [buildRow, extend, List.lookup_append, List.lookup, h1, h2]

/-! ## C8 -/

/-- C8, as stated, fails on a date row: the profile of the column is classified
date and carries minValue 7 and maxLength 9, and the row built for it, which is
the one row of the collection, has minValue 0 and maxLength 0. -/
theorem buildRow_date_row_loses_profile_values :
    ClassifiedAs sampleTabType
      [("distributionType", Val.str "date"), ("minValue", Val.num 7), ("maxLength", Val.num 9)]
      "date" ∧
    (initializeRows sampleTabType
      [ { guid := "c", attributes := [],
          profileData := some ⟨[("distributionType", Val.str "date"),
            ("minValue", Val.num 7), ("maxLength", Val.num 9)]⟩ } ]).map
      (fun row => (row.get "minValue", row.get "maxLength"))
    = [ (Val.num 0, Val.num 0) ] := by
  refine ⟨⟨{ type := Val.str "date", actualObj := [] }, rfl, rfl⟩, rfl⟩

/-- C8, amended: a row built for a column whose profile is classified numeric
has, for each of minValue, maxValue, meanValue and medianValue that the profile
carries, the profile's value; a row of a profile classified string has, for
each of averageLength and maxLength that the profile carries, the profile's
value; a row of a profile classified date has 0 in all six fields. The row is
in the collection built from any column list holding the column. -/
theorem buildRow_keeps_statistics_of_type (g : TabTypeFn) (columns : List Column)
    (obj : Column) (pd : ProfileData) (tab : ProfileTab)
    (hmem : obj ∈ columns) (hpd : obj.profileData = some pd)
    (htab : g pd.attributes true = some tab) :
    buildRow g obj pd ∈ initializeRows g columns ∧
    (tab.type = Val.str "numeric" →
      ∀ k ∈ ["minValue", "maxValue", "meanValue", "medianValue"], ∀ x,
        List.lookup k pd.attributes = some x → List.lookup k (buildRow g obj pd) = some x) ∧
    (tab.type = Val.str "string" →
      ∀ k ∈ ["averageLength", "maxLength"], ∀ x,
        List.lookup k pd.attributes = some x → List.lookup k (buildRow g obj pd) = some x) ∧
    (tab.type = Val.str "date" →
      ∀ k ∈ ["minValue", "maxValue", "meanValue", "medianValue", "averageLength", "maxLength"],
        List.lookup k (buildRow g obj pd) = some (Val.num 0)) := by
  refine ⟨buildRow_mem_initializeRows g columns obj pd hmem hpd, ?_, ?_, ?_⟩
  · intro ht k hk x hx
    simp only [List.mem_cons, List.mem_singleton, List.not_mem_nil, or_false] at hk
    rcases hk with rfl | rfl | rfl | rfl <;>
      · rw [lookup_buildRow g obj pd _ (by decide) (by decide), htab,
          changeValueObj_numeric tab ht, hx]
        simp [List.lookup]
  · intro ht k hk x hx
    simp only [List.mem_cons, List.mem_singleton, List.not_mem_nil, or_false] at hk
    rcases hk with rfl | rfl <;>
      · rw [lookup_buildRow g obj pd _ (by decide) (by decide), htab,
          changeValueObj_string tab ht, hx]
        simp [List.lookup]
  · intro ht k hk
    simp only [List.mem_cons, List.mem_singleton, List.not_mem_nil, or_false] at hk
    rcases hk with rfl | rfl | rfl | rfl | rfl | rfl <;>
      · rw [lookup_buildRow g obj pd _ (by decide) (by decide), htab,
          changeValueObj_date tab ht]
        simp [List.lookup]

/-- C8, amended, on the example numeric column: its row is in the collection
and keeps the profile's minValue 3. -/
theorem buildRow_keeps_statistics_of_type_witness :
    buildRow sampleTabType sampleNumericColumn sampleNumericProfile ∈
      initializeRows sampleTabType [sampleStringColumn, sampleNumericColumn] ∧
    List.lookup "minValue" (buildRow sampleTabType sampleNumericColumn sampleNumericProfile)
      = some (Val.num 3) :=
  have h := buildRow_keeps_statistics_of_type sampleTabType
    [sampleStringColumn, sampleNumericColumn] sampleNumericColumn sampleNumericProfile
    { type := Val.str "numeric", actualObj := [] } (by simp) rfl rfl
  ⟨h.1, h.2.1 rfl "minValue" (by simp) (Val.num 3) rfl⟩

/-! ## C9 -/

/-- C9: the row built for a column whose profile is classified numeric has
averageLength and maxLength present and equal to 0, and the row of a profile
classified string has minValue, maxValue, meanValue and medianValue present and
equal to 0, whatever the column and the profile carried for these keys; the row
is in the collection built from any column list holding the column. -/
theorem buildRow_zeroes_statistics_of_other_type (g : TabTypeFn) (columns : List Column)
    (obj : Column) (pd : ProfileData) (tab : ProfileTab)
    (hmem : obj ∈ columns) (hpd : obj.profileData = some pd)
    (htab : g pd.attributes true = some tab) :
    buildRow g obj pd ∈ initializeRows g columns ∧
    (tab.type = Val.str "numeric" →
      List.lookup "averageLength" (buildRow g obj pd) = some (Val.num 0) ∧
      List.lookup "maxLength" (buildRow g obj pd) = some (Val.num 0)) ∧
    (tab.type = Val.str "string" →
      List.lookup "minValue" (buildRow g obj pd) = some (Val.num 0) ∧
      List.lookup "maxValue" (buildRow g obj pd) = some (Val.num 0) ∧
      List.lookup "meanValue" (buildRow g obj pd) = some (Val.num 0) ∧
      List.lookup "medianValue" (buildRow g obj pd) = some (Val.num 0)) := by
  refine ⟨buildRow_mem_initializeRows g columns obj pd hmem hpd, ?_, ?_⟩
  · intro ht
    refine ⟨?_, ?_⟩ <;>
      · rw [lookup_buildRow g obj pd _ (by decide) (by decide), htab,
          changeValueObj_numeric tab ht]
        simp [List.lookup]
  · intro ht
    refine ⟨?_, ?_, ?_, ?_⟩ <;>
      · rw [lookup_buildRow g obj pd _ (by decide) (by decide), htab,
          changeValueObj_string tab ht]
        simp [List.lookup]

/-- C9 on the example columns: the numeric column's attributes carry maxLength
6 and its profile averageLength 2, and its row has 0 for both. -/
theorem buildRow_zeroes_statistics_of_other_type_witness :
    List.lookup "maxLength" sampleNumericColumn.allAttributes = some (Val.num 6) ∧
    List.lookup "averageLength" sampleNumericProfile.attributes = some (Val.num 2) ∧
    buildRow sampleTabType sampleNumericColumn sampleNumericProfile ∈
      initializeRows sampleTabType [sampleNumericColumn, sampleStringColumn] ∧
    List.lookup "averageLength"
      (buildRow sampleTabType sampleNumericColumn sampleNumericProfile) = some (Val.num 0) ∧
    List.lookup "maxLength"
      (buildRow sampleTabType sampleNumericColumn sampleNumericProfile) = some (Val.num 0) :=
  have h := buildRow_zeroes_statistics_of_other_type sampleTabType
    [sampleNumericColumn, sampleStringColumn] sampleNumericColumn sampleNumericProfile
    { type := Val.str "numeric", actualObj := [] } (by simp) rfl rfl
  ⟨rfl, rfl, h.1, h.2.1 rfl⟩

/-! ## C10 -/

theorem tabTypeIs_iff (g : TabTypeFn) (model : Attrs) (t : String) :
    tabTypeIs (g model true) t = true ↔ ClassifiedAs g model t := by
  unfold tabTypeIs ClassifiedAs
  cases hres : g model true with
  | none => simp
  | some tab =>
    cases htype : tab.type <;> simp [Val.isStr, htype]

/-- C10: the formatters of minValue, maxValue, meanValue and medianValue return
the raw value when the row is classified numeric and the placeholder "-"
otherwise; the formatters of averageLength and maxLength return the raw value
when the row is classified string and the placeholder otherwise; on a row
classified date all six return the placeholder. -/
theorem statistic_formatters_show_by_type (g : TabTypeFn) (rawValue : Val) (model : Attrs) :
    (ClassifiedAs g model "numeric" →
      minValueFromRaw g rawValue model = rawValue ∧ maxValueFromRaw g rawValue model = rawValue ∧
      meanValueFromRaw g rawValue model = rawValue ∧
      medianValueFromRaw g rawValue model = rawValue) ∧
    (¬ ClassifiedAs g model "numeric" →
      minValueFromRaw g rawValue model = Val.str "-" ∧
      maxValueFromRaw g rawValue model = Val.str "-" ∧
      meanValueFromRaw g rawValue model = Val.str "-" ∧
      medianValueFromRaw g rawValue model = Val.str "-") ∧
    (ClassifiedAs g model "string" →
      averageLengthFromRaw g rawValue model = rawValue ∧
      maxLengthFromRaw g rawValue model = rawValue) ∧
    (¬ ClassifiedAs g model "string" →
      averageLengthFromRaw g rawValue model = Val.str "-" ∧
      maxLengthFromRaw g rawValue model = Val.str "-") ∧
    (ClassifiedAs g model "date" →
      minValueFromRaw g rawValue model = Val.str "-" ∧
      maxValueFromRaw g rawValue model = Val.str "-" ∧
      meanValueFromRaw g rawValue model = Val.str "-" ∧
      medianValueFromRaw g rawValue model = Val.str "-" ∧
      averageLengthFromRaw g rawValue model = Val.str "-" ∧
      maxLengthFromRaw g rawValue model = Val.str "-") := by
  have hdate : ClassifiedAs g model "date" →
      ¬ ClassifiedAs g model "numeric" ∧ ¬ ClassifiedAs g model "string" := by
    rintro ⟨tab, h1, h2⟩
    constructor <;>
      · rintro ⟨tab2, h3, h4⟩
        rw [h1] at h3
        cases h3
        rw [h2] at h4
        simp at h4
  have hnum := tabTypeIs_iff g model "numeric"
  have hstr := tabTypeIs_iff g model "string"
  have hn : ¬ ClassifiedAs g model "numeric" → tabTypeIs (g model true) "numeric" = false := by
    intro h
    cases hb : tabTypeIs (g model true) "numeric" with
    | false => rfl
    | true => exact absurd (hnum.mp hb) h
  have hs : ¬ ClassifiedAs g model "string" → tabTypeIs (g model true) "string" = false := by
    intro h
    cases hb : tabTypeIs (g model true) "string" with
    | false => rfl
    | true => exact absurd (hstr.mp hb) h
  refine ⟨?_, ?_, ?_, ?_, ?_⟩
  · intro h
    simp [minValueFromRaw, maxValueFromRaw, meanValueFromRaw, medianValueFromRaw, hnum.mpr h]
  · intro h
    simp [minValueFromRaw, maxValueFromRaw, meanValueFromRaw, medianValueFromRaw, hn h]
  · intro h
    simp [averageLengthFromRaw, maxLengthFromRaw, hstr.mpr h]
  · intro h
    simp [averageLengthFromRaw, maxLengthFromRaw, hs h]
  · intro h
    simp [minValueFromRaw, maxValueFromRaw, meanValueFromRaw, medianValueFromRaw,
      averageLengthFromRaw, maxLengthFromRaw, hn (hdate h).1, hs (hdate h).2]

/-- C10 on example rows: a row classified numeric shows the raw minValue 3 and
the placeholder for averageLength; a row classified date shows the placeholder
for minValue and for maxLength. -/
theorem statistic_formatters_show_by_type_witness :
    minValueFromRaw sampleTabType (Val.num 3)
      (buildRow sampleTabType sampleNumericColumn sampleNumericProfile) = Val.num 3 ∧
    minValueFromRaw sampleTabType (Val.num 3) [("distributionType", Val.str "date")]
      = Val.str "-" ∧
    maxLengthFromRaw sampleTabType (Val.num 3) [("distributionType", Val.str "date")]
      = Val.str "-" :=
  have hnumeric := (statistic_formatters_show_by_type sampleTabType (Val.num 3)
    (buildRow sampleTabType sampleNumericColumn sampleNumericProfile)).1
      ⟨{ type := Val.str "numeric", actualObj := [] }, rfl, rfl⟩
  have hdate := (statistic_formatters_show_by_type sampleTabType (Val.num 3)
    [("distributionType", Val.str "date")]).2.2.2.2
      ⟨{ type := Val.str "date", actualObj := [] }, rfl, rfl⟩
  ⟨hnumeric.1, hdate.1, hdate.2.2.2.2.2⟩

/-! ## Lemmas on `renderDetails` -/

theorem renderDetails_triggered (v : ViewState) (data : Option Record) :
    (renderDetails v data).triggered = v.triggered := by
  cases data <;> rfl

/-! ## C4 -/

/-- C4, as stated, fails for the glossary kind: an edit of the glossary "Old"
confirmed with the unchanged name "Old" triggers `update:details`. -/
theorem editCallback_glossary_unchanged_name_notifies :
    sampleGlossaryView.isGlossaryView = true ∧
    sampleGlossaryView.data = some sampleGlossary ∧
    ({ sampleGlossary with shortDescription := some "new text" } : Record).name
      = sampleGlossary.name ∧
    Except.map ViewState.triggered
      (editCallback sampleGlossaryView { sampleGlossary with shortDescription := some "new text" })
      = Except.ok [Notification.updateDetailsGlossary] := by
  refine ⟨rfl, rfl, rfl, rfl⟩

/-- C4, amended: when an edit of a term or category is confirmed, the callback
completes without `update:details` if the edited name equals the record's
name before the edit, and every completed callback with a different name has
triggered `update:details` once, with the record before the edit; with a
different name the callback completes whenever the anchor glossary is in the
collection. When an edit of a glossary that is in the collection is confirmed,
`update:details` is triggered whatever the name. -/
theorem editCallback_update_details (v : ViewState) (data : Record) :
    (v.isGlossaryView = false → ∀ old, v.data = some old →
      (data.name = old.name →
        ∃ v', editCallback v data = Except.ok v' ∧ v'.triggered = v.triggered) ∧
      (data.name ≠ old.name → ∀ v', editCallback v data = Except.ok v' →
        v'.triggered = v.triggered ++ [Notification.updateDetails (some old)]) ∧
      (data.name ≠ old.name → ∀ anchor g, data.anchor = some anchor →
        collectionGet v.fullCollection anchor.glossaryGuid = some g →
        ∃ v', editCallback v data = Except.ok v')) ∧
    (v.isGlossaryView = true → ∀ m, collectionGet v.fullCollection v.guid = some m →
      ∃ v', editCallback v data = Except.ok v' ∧
        v'.triggered = v.triggered ++ [Notification.updateDetailsGlossary]) := by
  constructor
  · intro hkind old hold
    refine ⟨?_, ?_, ?_⟩
    · intro hname
      have h : editCallback v data
          = Except.ok (renderDetails { v with data := some data } (some data)) := by
        simp [editCallback, hkind, hold, hname]
      exact ⟨_, h, by rw [renderDetails_triggered]⟩
    · intro hname v' hres
      simp only [editCallback, hkind, hold] at hres
      have hne : (data.name != old.name) = true := by simpa using hname
      simp only [hne, if_true] at hres
      cases hanchor : data.anchor with
      | none => simp [hanchor] at hres
      | some anchor =>
        simp only [hanchor] at hres
        by_cases hterm : v.isTermView = true
        · simp only [hterm, if_true] at hres
          cases hg : collectionGet v.fullCollection anchor.glossaryGuid with
          | none => simp [hg] at hres
          | some g =>
            simp only [hg] at hres
            simp at hres
            rw [← hres, renderDetails_triggered]
        · have hterm' : v.isTermView = false := by simpa using hterm
          simp only [hterm'] at hres
          cases hparent : data.parentCategory with
          | some pc =>
            simp [hparent] at hres
            rw [← hres, renderDetails_triggered]
          | none =>
            simp only [hparent] at hres
            cases hg : collectionGet v.fullCollection anchor.glossaryGuid with
            | none => simp [hg] at hres
            | some g =>
              simp [hg] at hres
              rw [← hres, renderDetails_triggered]
    · intro hname anchor g hanchor hg
      have hne : (data.name != old.name) = true := by simpa using hname
      simp only [editCallback, hkind, hold, hne, hanchor, hg]
      by_cases hterm : v.isTermView = true
      · simp [hterm]
      · have hterm' : v.isTermView = false := by simpa using hterm
        cases hparent : data.parentCategory <;> simp [hterm']
  · intro hkind m hm
    have h : editCallback v data
        = Except.ok { renderDetails { v with
              fullCollection := collectionPut v.fullCollection v.guid (m.set data),
              data := some data } (some data) with
            triggered := (renderDetails { v with
              fullCollection := collectionPut v.fullCollection v.guid (m.set data),
              data := some data } (some data)).triggered
                ++ [Notification.updateDetailsGlossary] } := by
      simp [editCallback, hkind, hm]
    exact ⟨_, h, by simp [renderDetails_triggered]⟩

/-- C4, amended, on the example term view: the edit of the term "Old" confirmed
with the name "New" completes and triggers `update:details` once, and the edit
confirmed with the unchanged name completes and triggers nothing. -/
theorem editCallback_update_details_witness :
    (∃ v', editCallback sampleTermView { sampleTerm with name := some "New" } = Except.ok v' ∧
      v'.triggered = [Notification.updateDetails (some sampleTerm)]) ∧
    (∃ v', editCallback sampleTermView { sampleTerm with longDescription := some "text" }
        = Except.ok v' ∧ v'.triggered = []) :=
  have hchanged := (editCallback_update_details sampleTermView
    { sampleTerm with name := some "New" }).1 rfl sampleTerm rfl
  have hsame := (editCallback_update_details sampleTermView
    { sampleTerm with longDescription := some "text" }).1 rfl sampleTerm rfl
  have hne : ({ sampleTerm with name := some "New" } : Record).name ≠ sampleTerm.name := by
    decide
  ⟨match hchanged.2.2 hne { glossaryGuid := "g1" } sampleGlossary rfl rfl with
    | ⟨v', hv'⟩ => ⟨v', hv', hchanged.2.1 hne v' hv'⟩,
   hsame.1 rfl⟩

/-! ## C5 -/

/-- C5: a glossary view on the identifier "g2" whose collection is populated
with the glossary "g1" only: `getData` fails with a TypeError and asks for no
redirect, whereas with the collection still empty `getData` registers a handler
and the later load of the same collection redirects to the list view. -/
theorem getData_populated_absent_glossary_fails :
    collectionGet [sampleGlossary] "g2" = none ∧
    getData { sampleGlossaryView with guid := "g2", data := none }
      = Except.error "TypeError: fullCollection.get(...) is undefined" ∧
    Except.map (fun v => (resetEvent v [sampleGlossary]).urls)
      (getData { sampleGlossaryView with guid := "g2", data := none, fullCollection := [] })
      = Except.ok ["#!/glossary"] := by
  refine ⟨rfl, rfl, rfl⟩

/-! ## C6 -/

/-- C6: the success callback of a term or category fetch that arrives after
the view was destroyed changes nothing: the whole state is as before, so the
record, the shared selected item and the rendered detail are unchanged, no
sub-view is shown and nothing is triggered. -/
theorem fetchSuccess_after_destroy_applies_nothing (v : ViewState) (data : Record)
    (hdestroyed : v.isDestroyed = true) :
    fetchSuccess v data = v ∧
    (fetchSuccess v data).data = v.data ∧
    (fetchSuccess v data).selectedItem = v.selectedItem ∧
    (fetchSuccess v data).ui = v.ui ∧
    (fetchSuccess v data).subViews = v.subViews ∧
    (fetchSuccess v data).triggered = v.triggered := by
  have h : fetchSuccess v data = v := by simp [fetchSuccess, hdestroyed]
  simp [h]

/-- C6 on the example term view after its destruction, the payload being a
renamed term. -/
theorem fetchSuccess_after_destroy_applies_nothing_witness :
    ({ sampleTermView with isDestroyed := true } : ViewState).isDestroyed = true ∧
    fetchSuccess { sampleTermView with isDestroyed := true }
      { sampleTerm with name := some "New" }
      = { sampleTermView with isDestroyed := true } ∧
    (fetchSuccess sampleTermView { sampleTerm with name := some "New" }).triggered
      = [Notification.dataUpdated { sampleTerm with name := some "New" }] :=
  ⟨rfl,
   (fetchSuccess_after_destroy_applies_nothing { sampleTermView with isDestroyed := true }
     { sampleTerm with name := some "New" } rfl).1,
   rfl⟩

/-! ## C7 -/

set_option maxRecDepth 100000 in
/-- C7: the text `<b>x</b>` as `typeName` of a tag reaches the tag strip
unescaped, as title attribute and as element text, whereas the same text as
`displayText` of a category or of a term is escaped by `generateCategories`
and `generateTerm`. -/
theorem generateTag_inserts_typeName_unescaped :
    generateTagHtml [{ typeName := "<b>x</b>", entityGuid := "t1" }]
      = "<span class=\"btn btn-action btn-sm btn-icon btn-blue\" title=<b>x</b> data-id=\"tagClickTerm\"><span><b>x</b></span><i class=\"fa fa-close\" data-id=\"removeTagTerm\" data-type=\"tag\" title=\"Remove Tag\"></i></span>" ∧
    (generateTag sampleTermView [{ typeName := "<b>x</b>", entityGuid := "t1" }]).ui.tagList
      = [ Node.spanBtn "<span class=\"btn btn-action btn-sm btn-icon btn-blue\" title=<b>x</b> data-id=\"tagClickTerm\"><span><b>x</b></span><i class=\"fa fa-close\" data-id=\"removeTagTerm\" data-type=\"tag\" title=\"Remove Tag\"></i></span>",
          Node.other "<button data-id=\"addTagTerm\"></button>" ] ∧
    generateCategoriesHtml [{ categoryGuid := "k1", displayText := some "<b>x</b>" }]
      = "<span data-guid=\"k1\"\" class=\"btn btn-action btn-sm btn-icon btn-blue\" title=&amp;lt;b&amp;gt;x&amp;lt;/b&amp;gt; data-id=\"categoryClick\"><span>&lt;b&gt;x&lt;/b&gt;</span><i class=\"fa fa-close\" data-id=\"removeCategory\" data-type=\"category\" title=\"Remove Category\"></i></span>" ∧
    generateTermHtml [{ termGuid := "t1", displayText := some "<b>x</b>" }]
      = "<span data-guid=\"t1\"\" class=\"btn btn-action btn-sm btn-icon btn-blue\" title=&amp;lt;b&amp;gt;x&amp;lt;/b&amp;gt; data-id=\"termClick\"><span>&lt;b&gt;x&lt;/b&gt;</span><i class=\"fa fa-close\" data-id=\"removeTerm\" data-type=\"term\" title=\"Remove Term\"></i></span>" := by
  refine ⟨rfl, rfl, rfl, rfl⟩

/-! ## Lemmas on the order of the row store -/

theorem Val.gt_irrefl (a : Val) : a.gt a = false := by
  cases a <;> simp [Val.gt]

theorem Val.gt_asymm (a b : Val) (h : a.gt b = true) : b.gt a = false := by
  cases a <;> cases b <;> simp_all [Val.gt]
  · exact le_of_lt h
  · exact le_of_lt h

theorem Val.gt_trans (a b c : Val) (hab : a.gt b = true) (hbc : b.gt c = true) :
    a.gt c = true := by
  cases a <;> cases b <;> cases c <;> simp_all [Val.gt]
  · exact lt_trans hbc hab
  · exact lt_trans hbc hab

theorem mem_addRow (key : Attrs → Val) (row x : Attrs) (rows : List Attrs) :
    x ∈ addRow key row rows ↔ x = row ∨ x ∈ rows := by
  rw [(addRow_perm key row rows).mem_iff, List.mem_cons]

theorem addRow_keyOrdered (key : Attrs → Val) (row : Attrs) (rows : List Attrs)
    (h : KeyOrdered key rows) : KeyOrdered key (addRow key row rows) := by
  unfold KeyOrdered at *
  induction rows with
  | nil => simp [addRow]
  | cons r rest ih =>
    rw [List.pairwise_cons] at h
    unfold addRow
    split
    · rename_i hgt
      rw [List.pairwise_cons]
      refine ⟨?_, List.pairwise_cons.mpr h⟩
      intro y hy
      rcases List.mem_cons.mp hy with rfl | hy
      · exact Val.gt_asymm _ _ hgt
      · cases hc : (key row).gt (key y) with
        | false => rfl
        | true =>
          have := Val.gt_trans _ _ _ hgt hc
          rw [h.1 y hy] at this
          cases this
    · rename_i hgt
      rw [List.pairwise_cons]
      refine ⟨?_, ih h.2⟩
      intro y hy
      rcases (mem_addRow key row y rest).mp hy with rfl | hy
      · simpa using hgt
      · exact h.1 y hy

theorem filter_addRow (key : Attrs → Val) (p : Attrs → Bool)
    (hp : ∀ x y, p x = true → p y = true → key x = key y)
    (row : Attrs) (rows : List Attrs) (h : KeyOrdered key rows) :
    (addRow key row rows).filter p = rows.filter p ++ [row].filter p := by
  unfold KeyOrdered at h
  induction rows with
  | nil => simp [addRow]
  | cons r rest ih =>
    rw [List.pairwise_cons] at h
    unfold addRow
    split
    · rename_i hgt
      cases hrow : p row with
      | false => simp [List.filter_cons, hrow]
      | true =>
        have hnone : ∀ y ∈ r :: rest, p y = false := by
          intro y hy
          cases hy' : p y with
          | false => rfl
          | true =>
            have hk := hp y row hy' hrow
            rcases List.mem_cons.mp hy with rfl | hmem
            · rw [hk, Val.gt_irrefl] at hgt
              cases hgt
            · have := h.1 y hmem
              rw [hk, hgt] at this
              cases this
        have hnil : (r :: rest).filter p = [] := by
          rw [List.filter_eq_nil_iff]
          intro y hy
          simp [hnone y hy]
        rw [List.filter_cons, hnil]
        simp [hrow]
    · rw [List.filter_cons, List.filter_cons, ih h.2]
      split <;> simp

theorem foldl_loopBody_keyOrdered (g : TabTypeFn) (columns : List Column) (acc : List Attrs)
    (h : KeyOrdered comparator acc) :
    KeyOrdered comparator (columns.foldl (loopBody g) acc) := by
  induction columns generalizing acc with
  | nil => simpa using h
  | cons c cs ih =>
    simp only [List.foldl_cons]
    apply ih
    unfold loopBody
    cases c.profileData with
    | none => exact h
    | some pd => exact addRow_keyOrdered _ _ _ h

theorem filter_foldl_loopBody (g : TabTypeFn) (p : Attrs → Bool)
    (hp : ∀ x y, p x = true → p y = true → comparator x = comparator y)
    (columns : List Column) (acc : List Attrs) (h : KeyOrdered comparator acc) :
    (columns.foldl (loopBody g) acc).filter p =
      acc.filter p ++
        (columns.filterMap (fun obj => obj.profileData.map (buildRow g obj))).filter p := by
  induction columns generalizing acc with
  | nil => simp
  | cons c cs ih =>
    simp only [List.foldl_cons]
    cases hpd : c.profileData with
    | none =>
      have hstep : loopBody g acc c = acc := by simp [loopBody, hpd]
      rw [hstep, ih acc h]
      simp [List.filterMap_cons, hpd]
    | some pd =>
      have hstep : loopBody g acc c = addRow comparator (buildRow g c pd) acc := by
        simp [loopBody, hpd]
      rw [hstep, ih _ (addRow_keyOrdered _ _ _ h), filter_addRow comparator p hp _ _ h]
      simp only [List.filterMap_cons, hpd, Option.map_some', List.filter_cons, List.filter_nil,
        List.append_assoc]
      split <;> simp

theorem filter_initializeRows (g : TabTypeFn) (p : Attrs → Bool)
    (hp : ∀ x y, p x = true → p y = true → comparator x = comparator y)
    (columns : List Column) :
    (initializeRows g columns).filter p =
      (columns.filterMap (fun obj => obj.profileData.map (buildRow g obj))).filter p := by
  have h := filter_foldl_loopBody g p hp columns [] List.Pairwise.nil
  simpa [initializeRows] using h

/-! ## C11 -/

/-- C11: two columns with profile data, the first before the second in the
column list, whose rows have the same sort key, have their rows in this order
in the built row collection. -/
theorem initializeRows_keeps_order_of_equal_keys (g : TabTypeFn) (columns : List Column)
    (c₁ c₂ : Column) (pd₁ pd₂ : ProfileData)
    (hsub : List.Sublist [c₁, c₂] columns)
    (h₁ : c₁.profileData = some pd₁) (h₂ : c₂.profileData = some pd₂)
    (hkey : comparator (buildRow g c₁ pd₁) = comparator (buildRow g c₂ pd₂)) :
    List.Sublist [buildRow g c₁ pd₁, buildRow g c₂ pd₂] (initializeRows g columns) := by
  classical
  let p : Attrs → Bool := fun r => decide (comparator r = comparator (buildRow g c₁ pd₁))
  have hp : ∀ x y, p x = true → p y = true → comparator x = comparator y := by
    intro x y hx hy
    simp only [p, decide_eq_true_eq] at hx hy
    rw [hx, hy]
  have hrows : List.Sublist [buildRow g c₁ pd₁, buildRow g c₂ pd₂]
      (columns.filterMap (fun obj => obj.profileData.map (buildRow g obj))) := by
    have := hsub.filterMap (fun obj => obj.profileData.map (buildRow g obj))
    simpa [List.filterMap_cons, h₁, h₂] using this
  have hfilter := (hrows.filter p)
  have hboth : [buildRow g c₁ pd₁, buildRow g c₂ pd₂].filter p
      = [buildRow g c₁ pd₁, buildRow g c₂ pd₂] := by
    simp [List.filter_cons, p, hkey]
  rw [hboth, ← filter_initializeRows g p hp columns] at hfilter
  exact hfilter.trans (List.filter_sublist _)

/-- C11 on three example columns at the positions 2, 1, 2: the rows of the two
columns at position 2 keep their order, the collection being b, a, c. -/
theorem initializeRows_keeps_order_of_equal_keys_witness :
    List.Sublist
      [buildRow sampleTabType (positionedColumn "a" 2) ⟨[]⟩,
       buildRow sampleTabType (positionedColumn "c" 2) ⟨[]⟩]
      (initializeRows sampleTabType
        [positionedColumn "a" 2, positionedColumn "b" 1, positionedColumn "c" 2]) ∧
    (initializeRows sampleTabType
        [positionedColumn "a" 2, positionedColumn "b" 1, positionedColumn "c" 2]).map
      (fun row => row.get "guid") = [Val.str "b", Val.str "a", Val.str "c"] :=
  ⟨initializeRows_keeps_order_of_equal_keys sampleTabType
      [positionedColumn "a" 2, positionedColumn "b" 1, positionedColumn "c" 2]
      (positionedColumn "a" 2) (positionedColumn "c" 2) ⟨[]⟩ ⟨[]⟩
      (List.Sublist.cons₂ _ (List.Sublist.cons _ (List.Sublist.refl _))) rfl rfl rfl,
   rfl⟩

/-! ## C12 -/

/-- C12: for every value v with v < 30 the `nonNullData` formatter chooses the
danger class, and the cell it returns carries that class. -/
theorem nonNullDataBarClass_danger (v : Int) (hlt : v < 30) :
    nonNullDataBarClass v = "progress-bar-danger" ∧
    nonNullDataFromRaw v =
      "<div class=\"progress cstm_progress\" title=\"" ++ toString v
        ++ "%\"><div class=\"progress-bar " ++ "progress-bar-danger"
        ++ " cstm_success-bar progress-bar-striped\" style=\"width:" ++ toString v
        ++ "%\">" ++ toString v ++ "%</div></div>" := by
  have hclass : nonNullDataBarClass v = "progress-bar-danger" := by
    unfold nonNullDataBarClass
    rw [if_pos (by omega), if_neg (by omega)]
  refine ⟨hclass, ?_⟩
  unfold nonNullDataFromRaw
  rw [hclass]

/-- C12 at the value 29. -/
theorem nonNullDataBarClass_danger_witness :
    nonNullDataBarClass 29 = "progress-bar-danger" ∧
    nonNullDataFromRaw 29 =
      "<div class=\"progress cstm_progress\" title=\"29%\"><div class=\"progress-bar progress-bar-danger cstm_success-bar progress-bar-striped\" style=\"width:29%\">29%</div></div>" :=
  nonNullDataBarClass_danger 29 (by decide)

/-! ## C13 -/

/-- C13: for every value v with v >= 50 the `nonNullData` formatter chooses the
success class, and the cell it returns carries that class. -/
theorem nonNullDataBarClass_success (v : Int) (hge : 50 ≤ v) :
    nonNullDataBarClass v = "progress-bar-success" ∧
    nonNullDataFromRaw v =
      "<div class=\"progress cstm_progress\" title=\"" ++ toString v
        ++ "%\"><div class=\"progress-bar " ++ "progress-bar-success"
        ++ " cstm_success-bar progress-bar-striped\" style=\"width:" ++ toString v
        ++ "%\">" ++ toString v ++ "%</div></div>" := by
  have hclass : nonNullDataBarClass v = "progress-bar-success" := by
    unfold nonNullDataBarClass
    rw [if_neg (by omega)]
  refine ⟨hclass, ?_⟩
  unfold nonNullDataFromRaw
  rw [hclass]

/-- C13 at the value 50. -/
theorem nonNullDataBarClass_success_witness :
    nonNullDataBarClass 50 = "progress-bar-success" ∧
    nonNullDataFromRaw 50 =
      "<div class=\"progress cstm_progress\" title=\"50%\"><div class=\"progress-bar progress-bar-success cstm_success-bar progress-bar-striped\" style=\"width:50%\">50%</div></div>" :=
  nonNullDataBarClass_success 50 (by decide)

/-! ## Lemmas on the glossary collection and on `renderDetails` -/

theorem renderDetails_fullCollection (v : ViewState) (data : Option Record) :
    (renderDetails v data).fullCollection = v.fullCollection := by
  cases data <;> rfl

theorem collectionGet_guid (models : List Record) (id : String) (g : Record)
    (h : collectionGet models id = some g) : g.guid = some id := by
  unfold collectionGet at h
  have := List.find?_some h
  simpa using this

theorem collectionGet_collectionPut (models : List Record) (id : String) (g m : Record)
    (h : collectionGet models id = some g) (hm : m.guid = some id) :
    collectionGet (collectionPut models id m) id = some m := by
  induction models with
  | nil => simp [collectionGet] at h
  | cons x rest ih =>
    unfold collectionPut
    by_cases hx : (x.guid == some id) = true
    · simp [hx, collectionGet, List.find?_cons, hm]
    · have hx' : (x.guid == some id) = false := by simpa using hx
      have hrest : collectionGet rest id = some g := by
        simpa [collectionGet, List.find?_cons, hx'] using h
      have := ih hrest
      simpa [hx', collectionGet, List.find?_cons] using this

theorem patchTerms_guids (terms : List RelatedTerm) (guid name : Option String) :
    (patchTerms terms guid name).map (fun e => e.termGuid) = terms.map (fun e => e.termGuid) := by
  unfold patchTerms
  rw [List.map_map]
  apply List.map_congr_left
  intro e _
  simp only [Function.comp]
  split <;> rfl

theorem patchTerms_displayText (terms : List RelatedTerm) (guid name : Option String) :
    ∀ e ∈ patchTerms terms guid name, some e.termGuid = guid → e.displayText = name := by
  intro e he hguid
  unfold patchTerms at he
  obtain ⟨o, _, rfl⟩ := List.mem_map.mp he
  by_cases ho : (some o.termGuid == guid) = true
  · simp [ho]
  · simp only [ho] at hguid ⊢
    simp only [Bool.false_eq_true, if_false] at hguid ⊢
    exact absurd (by simpa using hguid) ho

theorem patchCategories_guids (categories : List RelatedCategory) (guid name : Option String) :
    (patchCategories categories guid name).map (fun e => e.categoryGuid)
      = categories.map (fun e => e.categoryGuid) := by
  unfold patchCategories
  rw [List.map_map]
  apply List.map_congr_left
  intro e _
  simp only [Function.comp]
  split <;> rfl

theorem patchCategories_displayText (categories : List RelatedCategory)
    (guid name : Option String) :
    ∀ e ∈ patchCategories categories guid name,
      some e.categoryGuid = guid → e.displayText = name := by
  intro e he hguid
  unfold patchCategories at he
  obtain ⟨o, _, rfl⟩ := List.mem_map.mp he
  by_cases ho : (some o.categoryGuid == guid) = true
  · simp [ho]
  · simp only [ho] at hguid ⊢
    simp only [Bool.false_eq_true, if_false] at hguid ⊢
    exact absurd (by simpa using hguid) ho

/-! ## C14 -/

/-- C14, as stated, fails for a category that has a parent category: the edit
of the category "Cat" (guid k1, parent k0) confirmed with the name "New"
leaves the entry k1 of the anchor glossary's category list with the text
"Cat". -/
theorem editCallback_child_category_not_patched :
    sampleCategoryView.isCategoryView = true ∧
    ({ sampleChildCategory with name := some "New" } : Record).name ≠ sampleChildCategory.name ∧
    Except.map (fun v => (collectionGet v.fullCollection "g1").map (fun g => g.categories))
      (editCallback sampleCategoryView { sampleChildCategory with name := some "New" })
      = Except.ok (some [{ categoryGuid := "k1", displayText := some "Cat" }]) := by
  refine ⟨rfl, by decide, rfl⟩

/-- C14, amended: when an edit of a term or category is confirmed with a
changed name and the anchor glossary is in the collection, the callback
completes; for a term every entry of the anchor glossary's term list whose
guid is the record's guid then has the new name as displayText, for a category
without a parent category the same holds of the glossary's category list, the
lists keeping their entries' guids; for a category with a parent category the
collection is left as it was. -/
theorem editCallback_patches_anchor_entry (v : ViewState) (data old : Record)
    (anchor : Anchor) (g : Record)
    (hkind : v.isGlossaryView = false) (hold : v.data = some old)
    (hname : data.name ≠ old.name) (hanchor : data.anchor = some anchor)
    (hg : collectionGet v.fullCollection anchor.glossaryGuid = some g) :
    (v.isTermView = true → ∃ v' g', editCallback v data = Except.ok v' ∧
      collectionGet v'.fullCollection anchor.glossaryGuid = some g' ∧
      g'.terms.map (fun e => e.termGuid) = g.terms.map (fun e => e.termGuid) ∧
      ∀ e ∈ g'.terms, some e.termGuid = data.guid → e.displayText = data.name) ∧
    (v.isTermView = false → data.parentCategory = none →
      ∃ v' g', editCallback v data = Except.ok v' ∧
      collectionGet v'.fullCollection anchor.glossaryGuid = some g' ∧
      g'.categories.map (fun e => e.categoryGuid) = g.categories.map (fun e => e.categoryGuid) ∧
      ∀ e ∈ g'.categories, some e.categoryGuid = data.guid → e.displayText = data.name) ∧
    (v.isTermView = false → data.parentCategory ≠ none →
      ∃ v', editCallback v data = Except.ok v' ∧ v'.fullCollection = v.fullCollection) := by
  have hne : (data.name != old.name) = true := by simpa using hname
  have hguid := collectionGet_guid _ _ _ hg
  refine ⟨?_, ?_, ?_⟩
  · intro hterm
    have hres : editCallback v data = Except.ok (renderDetails
        { v with
          fullCollection := collectionPut v.fullCollection anchor.glossaryGuid
            { g with terms := patchTerms g.terms data.guid data.name },
          triggered := v.triggered ++ [Notification.updateDetails v.data],
          data := some data } (some data)) := by
      simp [editCallback, hkind, hold, hne, hanchor, hg, hterm]
    refine ⟨_, { g with terms := patchTerms g.terms data.guid data.name }, hres, ?_,
      patchTerms_guids _ _ _, patchTerms_displayText _ _ _⟩
    rw [renderDetails_fullCollection]
    exact collectionGet_collectionPut _ _ g _ hg hguid
  · intro hterm hparent
    have hres : editCallback v data = Except.ok (renderDetails
        { v with
          fullCollection := collectionPut v.fullCollection anchor.glossaryGuid
            { g with categories := patchCategories g.categories data.guid data.name },
          triggered := v.triggered ++ [Notification.updateDetails v.data],
          data := some data } (some data)) := by
      simp [editCallback, hkind, hold, hne, hanchor, hg, hterm, hparent]
    refine ⟨_, { g with categories := patchCategories g.categories data.guid data.name }, hres,
      ?_, patchCategories_guids _ _ _, patchCategories_displayText _ _ _⟩
    rw [renderDetails_fullCollection]
    exact collectionGet_collectionPut _ _ g _ hg hguid
  · intro hterm hparent
    obtain ⟨pc, hpc⟩ := Option.ne_none_iff_exists'.mp hparent
    have hres : editCallback v data = Except.ok (renderDetails
        { v with
          triggered := v.triggered ++ [Notification.updateDetails v.data],
          data := some data } (some data)) := by
      simp [editCallback, hkind, hold, hne, hanchor, hterm, hpc]
    refine ⟨_, hres, ?_⟩
    rw [renderDetails_fullCollection]

/-- C14, amended, on the example term view: the edit of the term t1 confirmed
with the name "New" completes, and the entry t1 of the glossary's term list
then reads "New". -/
theorem editCallback_patches_anchor_entry_witness :
    ∃ v' g', editCallback sampleTermView { sampleTerm with name := some "New" } = Except.ok v' ∧
      collectionGet v'.fullCollection "g1" = some g' ∧
      g'.terms.map (fun e => e.termGuid) = ["t1"] ∧
      ∀ e ∈ g'.terms, some e.termGuid = some "t1" → e.displayText = some "New" :=
  (editCallback_patches_anchor_entry sampleTermView { sampleTerm with name := some "New" }
    sampleTerm { glossaryGuid := "g1" } sampleGlossary rfl rfl (by decide) rfl rfl).1 rfl

/-! ## C15 -/

theorem title_after_renderDetails (v : ViewState) (d : Record) :
    (renderDetails v (some d)).ui.title = setText v.ui.title (titleValue d) := rfl

theorem titleValue_cases (d : Record) :
    titleValue d =
      if truthyStr d.name = true then TextValue.str (d.name.getD "")
      else if truthyStr d.displayText = true then TextValue.str (d.displayText.getD "")
      else d.textValue "qualifiedName" d.qualifiedName := by
  unfold titleValue orStr
  cases hn : d.name with
  | none =>
    cases hd : d.displayText with
    | none => simp [truthyStr]
    | some t => by_cases ht : t = "" <;> simp [truthyStr, ht]
  | some n =>
    by_cases hne : n = ""
    · cases hd : d.displayText with
      | none => simp [truthyStr, hne]
      | some t => by_cases ht : t = "" <;> simp [truthyStr, hne, ht]
    · simp [truthyStr, hne]

/-- C15: for a record with a name, `renderDetails` sets the title to the name;
without a name and with a displayText, to the displayText; with neither, to
the qualifiedName when it is a string, to the empty text when the key
`qualifiedName` is `null`, and a record without that key leaves the title as it
was; for a null record the title is "No Data found". A name or displayText that
is absent, `null` or empty counts as missing. -/
theorem renderDetails_title (v : ViewState) (d : Record) :
    (truthyStr d.name = true → some (renderDetails v (some d)).ui.title = d.name) ∧
    (truthyStr d.name = false → truthyStr d.displayText = true →
      some (renderDetails v (some d)).ui.title = d.displayText) ∧
    (truthyStr d.name = false → truthyStr d.displayText = false →
      ∀ q, d.qualifiedName = some q → (renderDetails v (some d)).ui.title = q) ∧
    (truthyStr d.name = false → truthyStr d.displayText = false → d.qualifiedName = none →
      d.emptyKeys.contains "qualifiedName" = true →
      (renderDetails v (some d)).ui.title = "") ∧
    (truthyStr d.name = false → truthyStr d.displayText = false → d.qualifiedName = none →
      d.emptyKeys.contains "qualifiedName" = false →
      (renderDetails v (some d)).ui.title = v.ui.title) ∧
    (renderDetails v none).ui.title = "No Data found" := by
  refine ⟨?_, ?_, ?_, ?_, ?_, rfl⟩
  · intro hn
    rw [title_after_renderDetails, titleValue_cases, if_pos hn]
    cases hname : d.name with
    | none =>
      rw [hname] at hn
      simp [truthyStr] at hn
    | some n => simp [setText]
  · intro hn hd
    rw [title_after_renderDetails, titleValue_cases, if_neg (by simp [hn]), if_pos hd]
    cases hdisp : d.displayText with
    | none =>
      rw [hdisp] at hd
      simp [truthyStr] at hd
    | some t => simp [setText]
  · intro hn hd q hq
    rw [title_after_renderDetails, titleValue_cases, if_neg (by simp [hn]),
      if_neg (by simp [hd]), hq]
    rfl
  · intro hn hd hq hnull
    rw [title_after_renderDetails, titleValue_cases, if_neg (by simp [hn]),
      if_neg (by simp [hd]), hq]
    simp only [Record.textValue, hnull, if_true, setText]
  · intro hn hd hq habsent
    rw [title_after_renderDetails, titleValue_cases, if_neg (by simp [hn]),
      if_neg (by simp [hd]), hq]
    simp only [Record.textValue, habsent, Bool.false_eq_true, if_false, setText]

/-- C15 on the example term, whose name is "Old", on a record that has only
the qualifiedName "q@g", and on a record whose three keys are `null`, shown by
a view whose title was "PREV". -/
theorem renderDetails_title_witness :
    (renderDetails sampleTermView (some sampleTerm)).ui.title = "Old" ∧
    (renderDetails sampleTermView
      (some { Record.empty with name := some "", qualifiedName := some "q@g" })).ui.title
      = "q@g" ∧
    (renderDetails { sampleTermView with ui := { sampleUi with title := "PREV" } }
      (some { Record.empty with
        emptyKeys := ["name", "displayText", "qualifiedName"] })).ui.title = "" ∧
    (renderDetails { sampleTermView with ui := { sampleUi with title := "PREV" } }
      (some Record.empty)).ui.title = "PREV" :=
  ⟨Option.some.inj ((renderDetails_title sampleTermView sampleTerm).1 rfl),
   (renderDetails_title sampleTermView
      { Record.empty with name := some "", qualifiedName := some "q@g" }).2.2.1 rfl rfl
      "q@g" rfl,
   (renderDetails_title { sampleTermView with ui := { sampleUi with title := "PREV" } }
      { Record.empty with
        emptyKeys := ["name", "displayText", "qualifiedName"] }).2.2.2.1 rfl rfl rfl rfl,
   (renderDetails_title { sampleTermView with ui := { sampleUi with title := "PREV" } }
      Record.empty).2.2.2.2.1 rfl rfl rfl rfl⟩

/-! ## C16 -/

set_option maxRecDepth 100000 in
/-- C16: a record whose one tag has the typeName `</span>hello`, rendered by
the example term view. After the first `renderDetails` the tag strip holds the
`span.btn` entry of the tag, an `i` element that the markup of the typeName
has pushed out of the entry, and the add button; the second `renderDetails`
with the same record removes the entry only and leaves a second `i` element,
so the strip is not as after the first call and holds a node left from the
earlier render. -/
theorem renderDetails_twice_leaves_stray_node :
    (renderDetails sampleTermView (some { sampleTerm with
        classifications := [{ typeName := "</span>hello", entityGuid := "t1" }] })).ui.tagList
      = [ Node.spanBtn "<span class=\"btn btn-action btn-sm btn-icon btn-blue\" title=</span>hello data-id=\"tagClickTerm\"><span></span>hello</span>",
          Node.other "<i class=\"fa fa-close\" data-id=\"removeTagTerm\" data-type=\"tag\" title=\"Remove Tag\"></i>",
          Node.other "<button data-id=\"addTagTerm\"></button>" ] ∧
    (renderDetails
        (renderDetails sampleTermView (some { sampleTerm with
          classifications := [{ typeName := "</span>hello", entityGuid := "t1" }] }))
        (some { sampleTerm with
          classifications := [{ typeName := "</span>hello", entityGuid := "t1" }] })).ui.tagList
      = [ Node.spanBtn "<span class=\"btn btn-action btn-sm btn-icon btn-blue\" title=</span>hello data-id=\"tagClickTerm\"><span></span>hello</span>",
          Node.other "<i class=\"fa fa-close\" data-id=\"removeTagTerm\" data-type=\"tag\" title=\"Remove Tag\"></i>",
          Node.other "<i class=\"fa fa-close\" data-id=\"removeTagTerm\" data-type=\"tag\" title=\"Remove Tag\"></i>",
          Node.other "<button data-id=\"addTagTerm\"></button>" ] := by
  refine ⟨rfl, rfl⟩

/-! ## C17 -/

theorem onReset_fields (v : ViewState) :
    (onReset v).guid = v.guid ∧ (onReset v).fullCollection = v.fullCollection ∧
    (onReset v).resetListeners = v.resetListeners ∧
    (onReset v).isDestroyed = v.isDestroyed ∧
    (onReset v).triggered = v.triggered ++
      [Notification.dataUpdated ((collectionGet v.fullCollection v.guid).getD Record.empty)] := by
  unfold onReset
  cases hfound : collectionGet v.fullCollection v.guid <;>
    simp [renderDetails, generateTag, generateTerm, generateCategories]

theorem iterate_onReset_fields (n : Nat) (w : ViewState) :
    (onReset^[n] w).guid = w.guid ∧ (onReset^[n] w).fullCollection = w.fullCollection ∧
    (onReset^[n] w).resetListeners = w.resetListeners ∧
    (onReset^[n] w).isDestroyed = w.isDestroyed ∧
    (onReset^[n] w).triggered = w.triggered ++ List.replicate n
      (Notification.dataUpdated ((collectionGet w.fullCollection w.guid).getD Record.empty)) := by
  induction n with
  | zero => simp
  | succ n ih =>
    rw [Function.iterate_succ_apply']
    obtain ⟨h1, h2, h3, h4, h5⟩ := ih
    obtain ⟨k1, k2, k3, k4, k5⟩ := onReset_fields (onReset^[n] w)
    refine ⟨k1.trans h1, k2.trans h2, k3.trans h3, k4.trans h4, ?_⟩
    rw [k5, h5, h1, h2, List.append_assoc, List.replicate_succ']

/-- C17, as stated, fails: two `getData` calls of a glossary view made while
the collection is empty leave two subscriptions pending, and the load of the
collection then resolves twice; and with one subscription a second load event
resolves again. -/
theorem getData_twice_resolves_twice :
    Except.map (fun v => (v.resetListeners, (resetEvent v [sampleGlossary]).triggered))
      (getData sampleUnloadedGlossaryView >>= getData)
      = Except.ok (2, [Notification.dataUpdated sampleGlossary,
          Notification.dataUpdated sampleGlossary]) ∧
    Except.map (fun v => (v.resetListeners,
        (resetEvent (resetEvent v [sampleGlossary]) [sampleGlossary]).triggered))
      (getData sampleUnloadedGlossaryView)
      = Except.ok (1, [Notification.dataUpdated sampleGlossary,
          Notification.dataUpdated sampleGlossary]) := by
  refine ⟨rfl, rfl⟩

/-- C17, amended: on a view that is not destroyed, a `getData` call of a
glossary view made while the collection is empty adds one subscription and
changes nothing else, and a load event removes no subscription and resolves
once for each subscription registered, each time with the glossary found in
the loaded collection; `destroy` removes the subscriptions, so that a load
event after it resolves nothing. -/
theorem getData_adds_subscription_reset_resolves_each (v : ViewState) (models : List Record)
    (halive : v.isDestroyed = false) :
    (v.isGlossaryView = true → v.fullCollection = [] →
      getData v = Except.ok { v with resetListeners := v.resetListeners + 1 }) ∧
    (resetEvent v models).isDestroyed = false ∧
    (resetEvent v models).resetListeners = v.resetListeners ∧
    (resetEvent v models).triggered = v.triggered ++ List.replicate v.resetListeners
      (Notification.dataUpdated ((collectionGet models v.guid).getD Record.empty)) ∧
    (destroy v).resetListeners = 0 ∧
    resetEvent (destroy v) models = { destroy v with fullCollection := models } := by
  refine ⟨?_, ?_, ?_, ?_, rfl, rfl⟩
  · intro hkind hempty
    simp [getData, hkind, hempty]
  · rw [← halive]
    exact (iterate_onReset_fields v.resetListeners { v with fullCollection := models }).2.2.2.1
  · exact (iterate_onReset_fields v.resetListeners { v with fullCollection := models }).2.2.1
  · exact (iterate_onReset_fields v.resetListeners { v with fullCollection := models }).2.2.2.2

/-- C17, amended, on the example view whose collection is not loaded: the call
adds the first subscription, the load of the collection then resolves once,
and after `destroy` it resolves nothing. -/
theorem getData_adds_subscription_reset_resolves_each_witness :
    getData sampleUnloadedGlossaryView
      = Except.ok { sampleUnloadedGlossaryView with resetListeners := 1 } ∧
    (resetEvent { sampleUnloadedGlossaryView with resetListeners := 1 }
      [sampleGlossary]).triggered = [Notification.dataUpdated sampleGlossary] ∧
    (resetEvent (destroy { sampleUnloadedGlossaryView with resetListeners := 1 })
      [sampleGlossary]).triggered = [] :=
  ⟨(getData_adds_subscription_reset_resolves_each sampleUnloadedGlossaryView [] rfl).1 rfl rfl,
   (getData_adds_subscription_reset_resolves_each
      { sampleUnloadedGlossaryView with resetListeners := 1 } [sampleGlossary] rfl).2.2.2.1,
   rfl⟩

/-! ## C18 -/

theorem foldl_push_count (buckets : List Attrs) (acc : List Val) :
    buckets.foldl (fun arr obj => arr ++ [obj.get "count"]) acc
      = acc ++ buckets.map (fun obj => obj.get "count") := by
  induction buckets generalizing acc with
  | nil => simp
  | cons b bs ih => simp [List.foldl_cons, ih]

/-- C18: the `distributionDecile` formatter returns the sparkline element whose
`values` attribute is the comma-joined list of the `count` of each bucket that
the classifier returns for the row, in bucket order, and the empty string when
the classifier returns nothing; the classified type is not read, so two
classifier results with the same buckets give the same cell. -/
theorem distributionDecileFromRaw_values (g : TabTypeFn) (rawValue : Val) (model : Attrs) :
    (∀ tab, g model false = some tab →
      distributionDecileFromRaw g rawValue model =
        "<span data-guid=\"" ++ (model.get "guid").toStr
          ++ "\" class=\"sparklines\" sparkType=\"bar\" sparkBarColor=\"#38BB9B\" values=\""
          ++ joinComma (tab.actualObj.map (fun bucket => bucket.get "count"))
          ++ "\"></span>") ∧
    (g model false = none →
      distributionDecileFromRaw g rawValue model =
        "<span data-guid=\"" ++ (model.get "guid").toStr
          ++ "\" class=\"sparklines\" sparkType=\"bar\" sparkBarColor=\"#38BB9B\" values=\""
          ++ "" ++ "\"></span>") ∧
    (∀ (g' : TabTypeFn) (tab tab' : ProfileTab), g model false = some tab →
      g' model false = some tab' → tab.actualObj = tab'.actualObj →
      distributionDecileFromRaw g rawValue model = distributionDecileFromRaw g' rawValue model) := by
  have hsome : ∀ (f : TabTypeFn) tab, f model false = some tab →
      distributionDecileFromRaw f rawValue model =
        "<span data-guid=\"" ++ (model.get "guid").toStr
          ++ "\" class=\"sparklines\" sparkType=\"bar\" sparkBarColor=\"#38BB9B\" values=\""
          ++ joinComma (tab.actualObj.map (fun bucket => bucket.get "count"))
          ++ "\"></span>" := by
    intro f tab htab
    simp only [distributionDecileFromRaw, htab, foldl_push_count, List.nil_append]
  refine ⟨hsome g, ?_, ?_⟩
  · intro hnone
    simp only [distributionDecileFromRaw, hnone, joinComma]
  · intro g' tab tab' h h' hbuckets
    rw [hsome g tab h, hsome g' tab' h', hbuckets]

/-- C18 on the example row with the bucket counts 4, 0 and 11. -/
theorem distributionDecileFromRaw_values_witness :
    distributionDecileFromRaw sampleBucketTabType Val.undefined sampleBucketRow
      = "<span data-guid=\"col-1\" class=\"sparklines\" sparkType=\"bar\" sparkBarColor=\"#38BB9B\" values=\"4,0,11\"></span>" :=
  (distributionDecileFromRaw_values sampleBucketTabType Val.undefined sampleBucketRow).1
    { type := Val.str "numeric",
      actualObj := [[("value", Val.str "0"), ("count", Val.num 4)],
        [("value", Val.str "1"), ("count", Val.num 0)],
        [("value", Val.str "2"), ("count", Val.num 11)]] } rfl

/-! ## C19 -/

theorem buildRow_guid (g : TabTypeFn) (obj : Column) (pd : ProfileData) :
    (buildRow g obj pd).get "guid" = Val.str obj.guid := by
  simp [buildRow, extend, Attrs.get, List.lookup]

theorem map_guid_filterMap_buildRow (g : TabTypeFn) (columns : List Column) :
    (columns.filterMap (fun obj => obj.profileData.map (buildRow g obj))).map
        (fun row => row.get "guid")
      = (columns.filter (fun obj => obj.profileData.isSome)).map (fun obj => Val.str obj.guid) := by
  induction columns with
  | nil => rfl
  | cons c cs ih =>
    cases hpd : c.profileData with
    | none => simp [List.filterMap_cons, List.filter_cons, hpd, ih]
    | some pd => simp [List.filterMap_cons, List.filter_cons, hpd, ih, buildRow_guid]

/-- C19, as stated, fails: two columns with the guid "col-1", both with profile
data, give two rows with the guid "col-1". -/
theorem initializeRows_duplicate_guid :
    (initializeRows sampleTabType [sampleNumericColumn, sampleNumericColumn]).map
      (fun row => row.get "guid") = [Val.str "col-1", Val.str "col-1"] := by
  rfl

/-- C19, amended: the guids of the rows are the guids of the columns with
non-null profile data, one row each, so that no two rows have the same guid
whenever no two of these columns have the same guid. -/
theorem initializeRows_guids_distinct (g : TabTypeFn) (columns : List Column)
    (hdistinct : ((columns.filter (fun obj => obj.profileData.isSome)).map
      (fun obj => obj.guid)).Nodup) :
    ((initializeRows g columns).map (fun row => row.get "guid")).Perm
      ((columns.filter (fun obj => obj.profileData.isSome)).map (fun obj => Val.str obj.guid)) ∧
    ((initializeRows g columns).map (fun row => row.get "guid")).Nodup := by
  have hperm : ((initializeRows g columns).map (fun row => row.get "guid")).Perm
      ((columns.filter (fun obj => obj.profileData.isSome)).map
        (fun obj => Val.str obj.guid)) := by
    rw [← map_guid_filterMap_buildRow g columns]
    exact (initializeRows_perm g columns).map _
  refine ⟨hperm, hperm.nodup_iff.mpr ?_⟩
  have hinj : Function.Injective Val.str := fun a b h => by injection h
  have := hdistinct.map hinj
  simpa [List.map_map, Function.comp_def] using this

/-- C19, amended, on the two example columns, whose guids differ. -/
theorem initializeRows_guids_distinct_witness :
    ((initializeRows sampleTabType [sampleNumericColumn, sampleStringColumn]).map
      (fun row => row.get "guid")).Nodup :=
  (initializeRows_guids_distinct sampleTabType [sampleNumericColumn, sampleStringColumn]
    (by decide)).2

/-! ## C20 -/

/-- C20, as stated, fails on a statistic key: the key averageLength is 4 in the
column attributes and 2 in the profile attributes, the profile is classified
numeric, and the row has averageLength 0, not the profile's 2. -/
theorem buildRow_statistic_key_not_overridden_by_profile :
    List.lookup "averageLength" sampleOverlapColumn.allAttributes = some (Val.num 4) ∧
    List.lookup "averageLength" sampleOverlapProfile.attributes = some (Val.num 2) ∧
    (initializeRows sampleTabType [sampleOverlapColumn]).map
      (fun row => List.lookup "averageLength" row) = [some (Val.num 0)] := by
  refine ⟨rfl, rfl, rfl⟩

/-- C20, amended: the row built for a column with profile data has the column's
own guid and the position of the column attributes, whatever the column and
profile attributes carry under these two keys, and for every other key that
`changeValueObj` does not set, a value carried by the profile attributes is the
row's value, whatever the column attributes carry; the row is in the
collection built from any column list holding the column. -/
theorem buildRow_guid_position_and_profile_override (g : TabTypeFn) (columns : List Column)
    (obj : Column) (pd : ProfileData)
    (hmem : obj ∈ columns) (hpd : obj.profileData = some pd) :
    buildRow g obj pd ∈ initializeRows g columns ∧
    List.lookup "guid" (buildRow g obj pd) = some (Val.str obj.guid) ∧
    List.lookup "position" (buildRow g obj pd) = some (obj.attributes.get "position") ∧
    (∀ k x, k ≠ "guid" → k ≠ "position" →
      List.lookup k (changeValueObj (g pd.attributes true)) = none →
      List.lookup k pd.attributes = some x →
      List.lookup k (buildRow g obj pd) = some x) := by
  refine ⟨buildRow_mem_initializeRows g columns obj pd hmem hpd, ?_, ?_, ?_⟩
  · simp [buildRow, extend, List.lookup]
  · simp [buildRow, extend, List.lookup, Column.allAttributes, hpd, Attrs.get]
  · intro k x hg hp hchange hx
    rw [lookup_buildRow g obj pd k hg hp, hchange, hx]
    rfl

/-- C20, amended, on the example column whose attributes and profile both carry
guid, position and name: the row has the column's guid "col-3", the position 7
of the column attributes and the profile's name. -/
theorem buildRow_guid_position_and_profile_override_witness :
    List.lookup "guid" (buildRow sampleTabType sampleOverlapColumn sampleOverlapProfile)
      = some (Val.str "col-3") ∧
    List.lookup "position" (buildRow sampleTabType sampleOverlapColumn sampleOverlapProfile)
      = some (Val.num 7) ∧
    List.lookup "name" (buildRow sampleTabType sampleOverlapColumn sampleOverlapProfile)
      = some (Val.str "profile of price") :=
  have h := buildRow_guid_position_and_profile_override sampleTabType [sampleOverlapColumn]
    sampleOverlapColumn sampleOverlapProfile (by simp) rfl
  ⟨h.2.1, h.2.2.1, h.2.2.2 "name" (Val.str "profile of price") (by decide) (by decide) rfl rfl⟩

/-! ## C21 -/

theorem renderDetails_data (v : ViewState) (data : Option Record) :
    (renderDetails v data).data = v.data := by
  cases data <;> rfl

theorem renderDetails_selectedItem (v : ViewState) (data : Option Record) :
    (renderDetails v data).selectedItem = v.selectedItem := by
  cases data <;> rfl

/-- C21: after the success callback of a term or category fetch has run on a
view that is not destroyed, the view's record is the payload, the shared
selected item has the payload's guid and the payload as model and its type as
before, and exactly one event was triggered, `data:updated` with a copy equal
to the payload. -/
theorem fetchSuccess_alive_applies_payload (v : ViewState) (data : Record)
    (halive : v.isDestroyed = false) :
    (fetchSuccess v data).data = some data ∧
    (fetchSuccess v data).selectedItem.guid = data.guid ∧
    (fetchSuccess v data).selectedItem.model = some data ∧
    (fetchSuccess v data).selectedItem.type = v.selectedItem.type ∧
    (fetchSuccess v data).triggered = v.triggered ++ [Notification.dataUpdated data] := by
  unfold fetchSuccess
  simp only [halive, Bool.false_eq_true, if_false]
  rw [renderDetails_data, renderDetails_selectedItem, renderDetails_triggered]
  cases v.isTermView <;> simp

/-- C21 on the example term view and on the example category view, the payload
being the renamed record. -/
theorem fetchSuccess_alive_applies_payload_witness :
    (fetchSuccess sampleTermView { sampleTerm with name := some "New" }).data
      = some { sampleTerm with name := some "New" } ∧
    (fetchSuccess sampleTermView { sampleTerm with name := some "New" }).selectedItem
      = { type := some "GlossaryTerm", guid := some "t1",
          model := some { sampleTerm with name := some "New" } } ∧
    (fetchSuccess sampleCategoryView { sampleChildCategory with name := some "New" }).triggered
      = [Notification.dataUpdated { sampleChildCategory with name := some "New" }] :=
  have hterm := fetchSuccess_alive_applies_payload sampleTermView
    { sampleTerm with name := some "New" } rfl
  have hcategory := fetchSuccess_alive_applies_payload sampleCategoryView
    { sampleChildCategory with name := some "New" } rfl
  ⟨hterm.1, rfl, hcategory.2.2.2.2⟩

end Atlas
